import Mathlib

/-! Status collector of the Cilium CLI.

A shallow embedding of `cilium-cli/status/k8s.go`: the readiness test
`statusIsReady`, the polling loop `Status`, the task list and the worker-pool
sizing of `status`, the collectors `deploymentStatus`, `podCount` and
`podStatus`, and the connectivity methods `ClusterMeshConnectivity` and
`KVStoreMeshConnectivity`.

Conventions of the embedding.

* A Go `map[string]T` is an association list with unique keys (`GoMap`); a
  missing key reads as `none`, which is what Go's zero value (`nil`) stands for
  in the places the code tests it.
* Go's `int`, `int32` and `int64` are `Int`: the only arithmetic is a difference
  of two `int32` values held in a 64-bit `int`, which cannot overflow.
* Calls to the Kubernetes client are inputs: a function of the embedding takes
  the pair `(value, error)` the call returned.
* `error` values built with `fmt.Errorf` are constructors of `GoError`;
  `GoError.Error` renders the message.
* `status.mutex` is not part of the data: `Lock`, `Unlock` and every write to the
  report are appended to the field `trace`, a record of what a task did in order.
-/

namespace CiliumCli

/-! ## Go maps -/

/-- A Go `map[string]α`, as an association list. -/
abbrev GoMap (α : Type) := List (String × α)

/-- The map read `m[k]`, `none` when the key is absent. -/
def GoMap.index {α : Type} : GoMap α → String → Option α
  | [], _ => none
  | (k', v) :: rest, k => if k' = k then some v else GoMap.index rest k

/-- The map write `m[k] = v`. -/
def GoMap.assign {α : Type} : GoMap α → String → α → GoMap α
  | [], k, v => [(k, v)]
  | (k', v') :: rest, k, v =>
    if k' = k then (k, v) :: rest else (k', v') :: GoMap.assign rest k v

/-- The counter increment `m[k]++` of a `MapCount`. -/
def GoMap.incr (m : GoMap Int) (k : String) : GoMap Int :=
  GoMap.assign m k ((GoMap.index m k).getD 0 + 1)

/-! ## Errors -/

/-- What the code observes of an error returned by the Kubernetes client:
`statusCode` is `some c` when `errors.As` finds a `*k8serrors.StatusError`, whose
`Status().Code` is `c`; `isNotFound` is the answer of `k8serrors.IsNotFound`. -/
structure ClientErr where
  statusCode : Option Int
  isNotFound : Bool
  message : String
  deriving DecidableEq, Repr

/-- The value of `http.StatusNotFound`. -/
def StatusNotFound : Int := 404

/-- The `error` values of the file. -/
inductive GoError where
  /-- An error handed back by the Kubernetes client. -/
  | client (e : ClientErr)
  /-- Line 159. -/
  | deploymentIsNotAvailable (name : String)
  /-- Line 175. -/
  | deploymentPodsNotReady (notReady : Int) (name : String)
  /-- Line 179. -/
  | deploymentPodsNotAvailable (unavailable : Int) (name : String)
  /-- Line 184. -/
  | deploymentRolloutNotStarted (name : String)
  /-- Line 189. -/
  | deploymentRollingOut (name : String) (updated replicas : Int)
  /-- Line 288. -/
  | noPodsFound
  /-- Line 298. -/
  | podIsPending
  /-- Line 301. -/
  | podHasFailed (reason message : String)
  deriving DecidableEq, Repr

/-- The message of an error, as `fmt.Errorf` formats it. -/
def GoError.Error : GoError → String
  | .client e => e.message
  | .deploymentIsNotAvailable name => "deployment " ++ name ++ " is not available"
  | .deploymentPodsNotReady n name =>
    toString n ++ " pods of Deployment " ++ name ++ " are not ready"
  | .deploymentPodsNotAvailable n name =>
    toString n ++ " pods of Deployment " ++ name ++ " are not available"
  | .deploymentRolloutNotStarted name =>
    "deployment " ++ name ++ " is updated but rollout has not started"
  | .deploymentRollingOut name updated replicas =>
    "deployment " ++ name ++ " is rolling out - " ++ toString updated ++ " out of "
      ++ toString replicas ++ " pods updated"
  | .noPodsFound => "no pods found"
  | .podIsPending => "pod is pending"
  | .podHasFailed reason message => "pod has failed: " ++ reason ++ " - " ++ message

/-! ## The report -/

/-- The parts of the report a task can write. -/
inductive Field where
  | PodState | PodsCount | PhaseCount | ImageCount | ConfigErrors | HelmChartVersion
  | CiliumStatus | CiliumEndpoints | Errors | CollectionErrors
  deriving DecidableEq, Repr

/-- One entry of the record of a task: an operation on `status.mutex` or a write
to a part of the report. -/
inductive Access where
  | lock
  | unlock
  | write (f : Field)
  deriving DecidableEq, Repr

/-- Modelled from the spec: the struct `PodStateCount` is declared in status.go,
which is not among the sources; its fields are the ones `deploymentStatus` sets
(lines 162 to 166). The field `Type` is spelled `Kind` here. -/
structure PodStateCount where
  Kind : String
  Desired : Int
  Ready : Int
  Available : Int
  Unavailable : Int
  deriving DecidableEq, Repr

/-- Modelled from the spec: the struct `PodsCount` is declared in status.go, which
is not among the sources; its fields are the ones `podCount` sets (lines 224 to
227). -/
structure PodsCount where
  All : Int
  ByCilium : Int
  deriving DecidableEq, Repr

/-- Modelled from the spec: the struct `ErrorCount` is declared in status.go, which
is not among the sources; `statusIsReady` reads its `Warnings` and `Errors`
(line 355) and `SetDisabled` sets a flag. -/
structure ErrorCount where
  Errors : List GoError
  Warnings : List GoError
  Disabled : Bool
  deriving DecidableEq, Repr

/-- Modelled from the spec: the map type `ErrorCountMap` (line 97) is declared in
status.go, which is not among the sources: findings per pod name. -/
abbrev ErrorCountMap := GoMap ErrorCount

/-- Modelled from the spec: the struct `Status`, "a shared result struct with a
mutex", is declared in status.go, which is not among the sources. Its fields are
the ones k8s.go reads and writes; `Errors` is indexed by a component name
(line 353) and then per pod (line 354). `CiliumStatus` and `CiliumEndpoints` hold
the agent answers, which the embedding does not look into. The mutex is
represented by `trace`. -/
structure Status where
  ImageCount : GoMap (GoMap Int)
  PhaseCount : GoMap (GoMap Int)
  PodState : GoMap PodStateCount
  PodsCount : PodsCount
  Errors : GoMap ErrorCountMap
  CollectionErrors : List GoError
  HelmChartVersion : String
  ConfigErrors : List String
  trace : List Access
  deriving DecidableEq, Repr

/-- Modelled from the spec: `newStatus` is defined in status.go, which is not
among the sources: the empty report `status` starts from (line 475). -/
def newStatus : Status :=
  { ImageCount := [], PhaseCount := [], PodState := [], PodsCount := ⟨0, 0⟩,
    Errors := [], CollectionErrors := [], HelmChartVersion := "", ConfigErrors := [],
    trace := [] }

/-- The call `status.mutex.Lock()`. -/
def Status.Lock (s : Status) : Status := { s with trace := s.trace ++ [Access.lock] }

/-- The call `status.mutex.Unlock()`. -/
def Status.Unlock (s : Status) : Status := { s with trace := s.trace ++ [Access.unlock] }

/-- Records a write to the part `f` of the report. -/
def Status.wrote (s : Status) (f : Field) : Status :=
  { s with trace := s.trace ++ [Access.write f] }

/-- Modelled from the spec: `aggregatedErrorCount` is defined in status.go, which
is not among the sources: the findings recorded for the pod `podName` of the
component `name`, an empty record if there is none yet. -/
def Status.aggregatedErrorCount (s : Status) (name podName : String) : ErrorCount :=
  (((GoMap.index s.Errors name).getD []).index podName).getD ⟨[], [], false⟩

/-- Stores the record `c` for the pod `podName` of the component `name`. -/
def Status.setErrorCount (s : Status) (name podName : String) (c : ErrorCount) : Status :=
  { s with
    Errors := GoMap.assign s.Errors name
      (GoMap.assign ((GoMap.index s.Errors name).getD []) podName c) }

/-- Modelled from the spec: `AddAggregatedError` is defined in status.go, which is
not among the sources: appends `err` to the errors of the pod `podName` of the
component `name`. -/
def Status.AddAggregatedError (s : Status) (name podName : String) (err : GoError) : Status :=
  let c := s.aggregatedErrorCount name podName
  (s.setErrorCount name podName { c with Errors := c.Errors ++ [err] }).wrote Field.Errors

/-- Modelled from the spec: `AddAggregatedWarning` is defined in status.go, which
is not among the sources: appends `warning` to the warnings of the pod `podName`
of the component `name`. -/
def Status.AddAggregatedWarning (s : Status) (name podName : String) (warning : GoError) :
    Status :=
  let c := s.aggregatedErrorCount name podName
  (s.setErrorCount name podName { c with Warnings := c.Warnings ++ [warning] }).wrote
    Field.Errors

/-- Modelled from the spec: `CollectionError` is defined in status.go, which is not
among the sources: appends `err` to the collection errors of the report. -/
def Status.CollectionError (s : Status) (err : GoError) : Status :=
  ({ s with CollectionErrors := s.CollectionErrors ++ [err] }).wrote Field.CollectionErrors

/-- Modelled from the spec: `totalErrors` is defined in status.go, which is not
among the sources: the number of errors recorded, over all components and pods. -/
def Status.totalErrors (s : Status) : Nat :=
  (s.Errors.map fun pods => (pods.2.map fun pod => pod.2.Errors.length).sum).sum

/-- Modelled from the spec: `totalWarnings` is defined in status.go, which is not
among the sources: the number of warnings recorded, over all components and
pods. -/
def Status.totalWarnings (s : Status) : Nat :=
  (s.Errors.map fun pods => (pods.2.map fun pod => pod.2.Warnings.length).sum).sum

/-! ## Parameters and readiness -/

/-- The constant `DefaultWorkerCount` (line 36). -/
def DefaultWorkerCount : Int := 5

/-- The struct `K8sStatusParameters` (lines 39 to 68); `WaitDuration` is in
nanoseconds. -/
structure K8sStatusParameters where
  Namespace : String
  Wait : Bool
  WaitDuration : Int
  WarningFreePods : List String
  IgnoreWarnings : Bool
  WorkerCount : Int
  Output : String
  HelmReleaseName : String
  Interactive : Bool
  Verbose : Bool
  deriving DecidableEq, Repr

/-- The struct `K8sStatusCollector` (lines 70 to 73); the client is the
environment of the embedding. -/
structure K8sStatusCollector where
  params : K8sStatusParameters
  deriving DecidableEq, Repr

/-- The method `waitTimeout` (lines 333 to 339), in nanoseconds. -/
def K8sStatusParameters.waitTimeout (s : K8sStatusParameters) : Int :=
  if s.WaitDuration ≠ 0 then s.WaitDuration else 5 * 60000000000

/-- The method `statusIsReady` (lines 341 to 363). -/
def K8sStatusCollector.statusIsReady (k : K8sStatusCollector) (s : Status) : Bool :=
  if s.totalErrors > 0 then false
  else if (!k.params.IgnoreWarnings && k.params.WarningFreePods.length == 0)
      && decide (s.totalWarnings > 0) then false
  else
    k.params.WarningFreePods.all fun name =>
      match GoMap.index s.Errors name with
      | none => true
      | some a => a.all fun c => !(decide (c.2.Warnings.length > 0) || decide (c.2.Errors.length > 0))

/-- The size of the worker pool `status` creates (lines 795 to 800): the argument
of `workerpool.New`. -/
def K8sStatusCollector.workerCount (k : K8sStatusCollector) : Int :=
  let wc := k.params.WorkerCount
  if wc < 1 then DefaultWorkerCount else wc

/-! ## Collectors -/

/-- The fields of `appsv1.Deployment` the code reads. -/
structure Deployment where
  Generation : Int
  ObservedGeneration : Int
  Replicas : Int
  UpdatedReplicas : Int
  ReadyReplicas : Int
  AvailableReplicas : Int
  UnavailableReplicas : Int
  deriving DecidableEq, Repr

/-- The method `deploymentStatus` (lines 148 to 193); `got` is what `GetDeployment`
returned. The result is the report, then the two values returned. -/
def K8sStatusCollector.deploymentStatus (_k : K8sStatusCollector)
    (got : Option Deployment × Option ClientErr) (status : Status) (name : String) :
    Status × Bool × Option GoError :=
  match got.2 with
  | some e =>
    if e.isNotFound then (status, true, none) else (status, false, some (GoError.client e))
  | none =>
    match got.1 with
    | none => (status, false, some (GoError.deploymentIsNotAvailable name))
    | some d =>
      let stateCount : PodStateCount :=
        { Kind := "Deployment", Desired := d.Replicas, Ready := d.ReadyReplicas,
          Available := d.AvailableReplicas, Unavailable := d.UnavailableReplicas }
      let status := status.Lock
      let status :=
        ({ status with PodState := GoMap.assign status.PodState name stateCount }).wrote
          Field.PodState
      let notReady := stateCount.Desired - stateCount.Ready
      let status :=
        if notReady > 0 then
          status.AddAggregatedError name name (GoError.deploymentPodsNotReady notReady name)
        else status
      let unavailable := stateCount.Unavailable - notReady
      let status :=
        if unavailable > 0 then
          status.AddAggregatedWarning name name
            (GoError.deploymentPodsNotAvailable unavailable name)
        else status
      let status :=
        if d.Generation ≠ d.ObservedGeneration then
          status.AddAggregatedError name name (GoError.deploymentRolloutNotStarted name)
        else status
      let status :=
        if d.UpdatedReplicas < d.Replicas then
          status.AddAggregatedError name name
            (GoError.deploymentRollingOut name d.UpdatedReplicas d.Replicas)
        else status
      (status.Unlock, false, none)

/-- The fields of `corev1.ContainerStateTerminated` the code reads; `FinishedAt`
is a time in seconds. -/
structure ContainerStateTerminated where
  ExitCode : Int
  Message : String
  FinishedAt : Int
  deriving DecidableEq, Repr

/-- The fields of `corev1.ContainerStatus` the code reads: `Running` tells whether
`State.Running` is set, `WaitingReason` is the reason of `State.Waiting` when that
is set, `LastTerminated` is `LastTerminationState.Terminated`. -/
structure ContainerStatus where
  Name : String
  Running : Bool
  WaitingReason : Option String
  LastTerminated : Option ContainerStateTerminated
  RestartCount : Int
  deriving DecidableEq, Repr

/-- The fields of `corev1.Pod` the code reads; `Images` lists the image of each
container of the pod spec, `ContainerStatuses` is `Status.ContainerStatuses`. -/
structure Pod where
  Name : String
  Namespace : String
  HostNetwork : Bool
  Phase : String
  Reason : String
  Message : String
  Images : List String
  ContainerStatuses : List ContainerStatus := []
  deriving DecidableEq, Repr

/-- The phase `corev1.PodPending`. -/
def PodPending : String := "Pending"
/-- The phase `corev1.PodRunning`. -/
def PodRunning : String := "Running"
/-- The phase `corev1.PodSucceeded`. -/
def PodSucceeded : String := "Succeeded"
/-- The phase `corev1.PodFailed`. -/
def PodFailed : String := "Failed"

/-- A `corev1.PodList`. -/
structure PodList where
  Items : List Pod
  deriving DecidableEq, Repr

/-- A `ciliumv2.CiliumEndpointList`; an item is represented by its name. -/
structure CiliumEndpointList where
  Items : List String
  deriving DecidableEq, Repr

/-- The method `podCount` (lines 195 to 230); `listed` is what `ListPods` returned
and `endpoints` what `ListCiliumEndpoints` returned (it is only called when
`ListPods` succeeded). The result is the report and the error returned. -/
def K8sStatusCollector.podCount (_k : K8sStatusCollector)
    (listed : Option PodList × Option ClientErr)
    (endpoints : Option CiliumEndpointList × Option ClientErr) (status : Status) :
    Status × Option GoError :=
  match listed.2 with
  | some err => (status, some (GoError.client err))
  | none =>
    let numberAllPod : Int :=
      match listed.1 with
      | none => 0
      | some pods =>
        if pods.Items.length ≠ 0 then
          pods.Items.foldl
            (fun n pod =>
              if !pod.HostNetwork && (pod.Phase == PodRunning || pod.Phase == PodPending)
              then n + 1 else n) 0
        else 0
    let rejected : Option ClientErr :=
      match endpoints.2 with
      | none => none
      | some err =>
        match err.statusCode with
        | some code => if code ≠ StatusNotFound then some err else none
        | none => none
    match rejected with
    | some err => (status, some (GoError.client err))
    | none =>
      let numberCiliumPod : Int :=
        match endpoints.1 with
        | none => 0
        | some ciliumEps => ciliumEps.Items.length
      (({ status with PodsCount := { All := numberAllPod, ByCilium := numberCiliumPod } }).wrote
        Field.PodsCount, none)

/-- The pod-count task of `status` (lines 626 to 638), run on the report `status`:
the report afterwards and the error the task returns. -/
def K8sStatusCollector.podCountTask (k : K8sStatusCollector)
    (listed : Option PodList × Option ClientErr)
    (endpoints : Option CiliumEndpointList × Option ClientErr) (status : Status) :
    Status × Option GoError :=
  match k.podCount listed endpoints status with
  | (status, some err) => ((status.Lock.CollectionError err).Unlock, none)
  | (status, none) => (status, none)

/-- The state of the loop of `podStatus`: the two local counters, the report, and
the state `σ` the callback works on. -/
structure PodStatusLoop (σ : Type) where
  phaseCount : GoMap Int
  imageCount : GoMap Int
  status : Status
  captured : σ

/-- One turn of the loop of `podStatus` (lines 293 to 311). -/
def K8sStatusCollector.podStatusStep {σ : Type} (_k : K8sStatusCollector) (name : String)
    (callback : Option (σ → Status → String → Pod → σ × Status))
    (l : PodStatusLoop σ) (pod : Pod) : PodStatusLoop σ :=
  let phaseCount := GoMap.incr l.phaseCount pod.Phase
  let status :=
    if pod.Phase = PodPending then
      l.status.AddAggregatedWarning name pod.Name GoError.podIsPending
    else if pod.Phase = PodRunning ∨ pod.Phase = PodSucceeded then l.status
    else if pod.Phase = PodFailed then
      l.status.AddAggregatedError name pod.Name (GoError.podHasFailed pod.Reason pod.Message)
    else l.status
  let imageCount := pod.Images.foldl GoMap.incr l.imageCount
  match callback with
  | none => ⟨phaseCount, imageCount, status, l.captured⟩
  | some f =>
    let r := f l.captured status name pod
    ⟨phaseCount, imageCount, r.2, r.1⟩

/-- The method `podStatus` (lines 281 to 317); `listed` is what `ListPods`
returned for the selector, `captured` the variables the callback closes over. The
result is that state, the report and the error returned. -/
def K8sStatusCollector.podStatus {σ : Type} (k : K8sStatusCollector)
    (listed : Option PodList × Option ClientErr) (status : Status) (name : String)
    (callback : Option (σ → Status → String → Pod → σ × Status)) (captured : σ) :
    σ × Status × Option GoError :=
  match listed.2 with
  | some err => (captured, status, some (GoError.client err))
  | none =>
    match listed.1 with
    | none => (captured, status, some GoError.noPodsFound)
    | some pods =>
      let l := pods.Items.foldl (k.podStatusStep name callback)
        ⟨[], [], status, captured⟩
      let status :=
        ({ l.status with PhaseCount := GoMap.assign l.status.PhaseCount name l.phaseCount }).wrote
          Field.PhaseCount
      let status :=
        ({ status with ImageCount := GoMap.assign status.ImageCount name l.imageCount }).wrote
          Field.ImageCount
      (l.captured, status, none)

/-- The notion "a write performed while the task does not hold `status.mutex`":
the writes of a record that come ahead of a `lock` or after an `unlock`; `held`
tells whether the task holds the mutex at the start. -/
def unguardedWrites : Bool → List Access → List Field
  | _, [] => []
  | _, Access.lock :: rest => unguardedWrites true rest
  | _, Access.unlock :: rest => unguardedWrites false rest
  | held, Access.write f :: rest =>
    if held then unguardedWrites held rest else f :: unguardedWrites held rest

/-! ## The task list of a collection -/

/-- Modelled from the spec: the constants of the package `defaults`, which is not
among the sources, that name the components and their containers; they are a
parameter of the embedding. The pod selectors only reach `ListPods`, whose answer
is an input. -/
structure Defaults where
  AgentDaemonSetName : String
  AgentContainerName : String
  EnvoyDaemonSetName : String
  OperatorDeploymentName : String
  OperatorContainerName : String
  RelayDeploymentName : String
  RelayContainerName : String
  HubbleUIDeploymentName : String
  ClusterMeshDeploymentName : String
  ClusterMeshContainerName : String
  ConfigMapName : String
  deriving DecidableEq, Repr

/-- The function of a `statusTask`, named by the place of its closure in the
source together with the variables it captures. -/
inductive TaskBody where
  /-- Lines 479 to 490. -/
  | agentDaemonSet
  /-- Lines 494 to 514. -/
  | envoyDaemonSet
  /-- Lines 518 to 532. -/
  | operatorDeployment
  /-- Lines 536 to 563. -/
  | relayDeployment
  /-- Lines 567 to 594. -/
  | hubbleUIDeployment
  /-- Lines 598 to 624. -/
  | clusterMeshDeployment
  /-- Lines 628 to 638. -/
  | podCount
  /-- Lines 642 to 650. -/
  | configAnnotations
  /-- Lines 656 to 667. -/
  | helmChartVersion
  /-- Lines 684 to 733: the status of the agent in `pod`. -/
  | agentStatus (pod : Pod) (containerStatus : Option ContainerStatus)
  /-- Lines 432 to 470, the closure `logComponentTask` returns: the logs of the
  container `containerName` of the pod `podName`. -/
  | logComponent (ns deployment podName containerName : String)
      (containerStatus : Option ContainerStatus)
  deriving DecidableEq, Repr

/-- The struct `statusTask` (lines 422 to 425). -/
structure statusTask where
  name : String
  task : TaskBody
  deriving DecidableEq, Repr

/-- The function `logComponentTask` (lines 429 to 472), as far as the task it
returns is named and what it captures. -/
def K8sStatusCollector.logComponentTask (_k : K8sStatusCollector)
    (ns deployment podName containerName : String) (containerStatus : Option ContainerStatus) :
    statusTask :=
  { name := podName, task := TaskBody.logComponent ns deployment podName containerName
      containerStatus }

/-- The loop that extracts the container status (lines 675 to 681, and the same
at 747, 764 and 781): the first status of the pod with the name `containerName`. -/
def extractContainerStatus (pod : Pod) (containerName : String) : Option ContainerStatus :=
  pod.ContainerStatuses.find? fun cStatus => cStatus.Name = containerName

/-- The variables of `status` the callbacks write: the slice `tasks`, and whether
`agentLogsOnce` (line 671) has run its function. -/
structure TaskList where
  tasks : List statusTask
  agentLogsOnce : Bool
  deriving DecidableEq, Repr

/-- The callback of `status` for the agent pods (lines 672 to 739). -/
def K8sStatusCollector.agentPodCallback (k : K8sStatusCollector) (d : Defaults)
    (captured : TaskList) (status : Status) (_name : String) (pod : Pod) : TaskList × Status :=
  if pod.Phase = PodRunning then
    let containerStatus := extractContainerStatus pod d.AgentContainerName
    let tasks := captured.tasks ++ [statusTask.mk pod.Name (TaskBody.agentStatus pod containerStatus)]
    if captured.agentLogsOnce then
      ({ tasks := tasks, agentLogsOnce := true }, status)
    else
      ({ tasks := tasks ++ [k.logComponentTask pod.Namespace d.AgentDaemonSetName pod.Name
          d.AgentContainerName containerStatus],
         agentLogsOnce := true }, status)
  else (captured, status)

/-- The callback of `status` for the pods of the operator (lines 744 to 756), of
the relay (lines 761 to 773) and of the clustermesh API server (lines 778 to
790), which differ by the two names. -/
def K8sStatusCollector.componentPodCallback (k : K8sStatusCollector)
    (deployment containerName : String)
    (captured : TaskList) (status : Status) (_name : String) (pod : Pod) : TaskList × Status :=
  if pod.Phase = PodRunning then
    let containerStatus := extractContainerStatus pod containerName
    let tasks := captured.tasks ++ [k.logComponentTask pod.Namespace deployment pod.Name
      containerName containerStatus]
    ({ captured with tasks := tasks }, status)
  else (captured, status)

/-- The nine tasks `status` starts from (lines 476 to 668). -/
def fixedTasks (d : Defaults) : List statusTask :=
  [ { name := d.AgentDaemonSetName, task := TaskBody.agentDaemonSet },
    { name := d.EnvoyDaemonSetName, task := TaskBody.envoyDaemonSet },
    { name := d.OperatorDeploymentName, task := TaskBody.operatorDeployment },
    { name := d.RelayDeploymentName, task := TaskBody.relayDeployment },
    { name := d.HubbleUIDeploymentName, task := TaskBody.hubbleUIDeployment },
    { name := d.ClusterMeshDeploymentName, task := TaskBody.clusterMeshDeployment },
    { name := d.HubbleUIDeploymentName, task := TaskBody.podCount },
    { name := d.ConfigMapName, task := TaskBody.configAnnotations },
    { name := "Helm chart version", task := TaskBody.helmChartVersion } ]

/-- One of the four calls of `podStatus` in `status` with the handling of its
error (lines 672 to 742, 744 to 759, 761 to 776, 778 to 793). -/
def K8sStatusCollector.statusPods (k : K8sStatusCollector)
    (listed : Option PodList × Option ClientErr) (name : String)
    (callback : TaskList → Status → String → Pod → TaskList × Status)
    (state : TaskList × Status) : TaskList × Status :=
  match k.podStatus listed state.2 name (some callback) state.1 with
  | (captured, status, some err) => (captured, status.CollectionError err)
  | (captured, status, none) => (captured, status)

/-- The method `status` ahead of the worker pool (lines 475 to 793): the tasks it
has gathered and the report, given what `ListPods` returned for the pods of the
agent, the operator, the relay and the clustermesh API server. -/
def K8sStatusCollector.statusTasks (k : K8sStatusCollector) (d : Defaults)
    (agents operators relays clustermesh : Option PodList × Option ClientErr) :
    List statusTask × Status :=
  let state : TaskList × Status := (⟨fixedTasks d, false⟩, newStatus)
  let state := k.statusPods agents d.AgentDaemonSetName (k.agentPodCallback d) state
  let state := k.statusPods operators d.OperatorDeploymentName
    (k.componentPodCallback d.OperatorDeploymentName d.OperatorContainerName) state
  let state := k.statusPods relays d.RelayDeploymentName
    (k.componentPodCallback d.RelayDeploymentName d.RelayContainerName) state
  let state := k.statusPods clustermesh d.ClusterMeshDeploymentName
    (k.componentPodCallback d.ClusterMeshDeploymentName d.ClusterMeshContainerName) state
  (state.1.tasks, state.2)

/-- The notion "the pods in phase Running", in list order. -/
def runningPods (pods : PodList) : List Pod :=
  pods.Items.filter fun pod => pod.Phase = PodRunning

/-- The notion "an agent status task". -/
def statusTask.isAgentStatus (t : statusTask) : Bool :=
  match t.task with
  | TaskBody.agentStatus _ _ => true
  | _ => false

/-- The notion "a log-gathering task". -/
def statusTask.isLogGathering (t : statusTask) : Bool :=
  match t.task with
  | TaskBody.logComponent _ _ _ _ _ => true
  | _ => false

/-- The agent status task of the pod `pod`. -/
def agentStatusTask (d : Defaults) (pod : Pod) : statusTask :=
  { name := pod.Name,
    task := TaskBody.agentStatus pod (extractContainerStatus pod d.AgentContainerName) }

/-- The log-gathering task of the pod `pod` for the container `containerName` of
the component `deployment`: the task named after the pod that gathers, in the
namespace of the pod, the logs of that container of that pod. -/
def logGatheringTask (deployment containerName : String) (pod : Pod) : statusTask :=
  { name := pod.Name,
    task := TaskBody.logComponent pod.Namespace deployment pod.Name containerName
      (extractContainerStatus pod containerName) }

/-! ## Cluster mesh connectivity -/

/-- Modelled from the spec: the struct `models.RemoteCluster` is declared in
api/v1/models, in a file that is not among the sources; k8s.go reads its `Name`
only (lines 122 and 142). -/
structure RemoteCluster where
  Name : String
  Connected : Bool
  Ready : Bool
  NumNodes : Int
  Status : String
  deriving DecidableEq, Repr

/-- Modelled from the spec: the struct `models.ClusterMeshStatus` is declared in
api/v1/models, in a file that is not among the sources; k8s.go reads the two
fields below (lines 120 and 121). An element of `Clusters` is a pointer, `none`
when it is nil. -/
structure ClusterMeshStatus where
  NumGlobalServices : Int
  Clusters : List (Option RemoteCluster)
  deriving DecidableEq, Repr

/-- Modelled from the spec: the struct `models.StatusResponse` is declared in
api/v1/models, in a file that is not among the sources; of the answer of the
agent, this part of k8s.go reads the section `ClusterMesh` only (line 116). -/
structure StatusResponse where
  ClusterMesh : Option ClusterMeshStatus
  deriving DecidableEq, Repr

/-- The struct `ClusterMeshAgentConnectivityStatus` (lines 94 to 98). -/
structure ClusterMeshAgentConnectivityStatus where
  GlobalServices : Int
  Clusters : GoMap RemoteCluster
  Errors : ErrorCountMap
  deriving DecidableEq, Repr

/-- The errors the two connectivity methods return: an error of the client, handed
on as it is, or the sentinel of line 101. The client `*k8s.Client` is in a package
that the package `status` imports, which cannot name the sentinel: an error of
the client is never the sentinel. -/
inductive ConnectivityError where
  | client (e : ClientErr)
  | clusterMeshStatusNotAvailable
  deriving DecidableEq, Repr

/-- The sentinel `ErrClusterMeshStatusNotAvailable` (line 101). -/
def ErrClusterMeshStatusNotAvailable : ConnectivityError :=
  ConnectivityError.clusterMeshStatusNotAvailable

/-- The message of a connectivity error. -/
def ConnectivityError.Error : ConnectivityError → String
  | .client e => e.message
  | .clusterMeshStatusNotAvailable => "ClusterMesh status is not available"

/-- The loop `for _, cluster := range ... { c.Clusters[cluster.Name] = cluster }`
(lines 121 to 123 and 141 to 143) from the map `m`; `none` when an element is a nil
pointer, for which `cluster.Name` panics. -/
def rangeClusters : List (Option RemoteCluster) → GoMap RemoteCluster →
    Option (GoMap RemoteCluster)
  | [], m => some m
  | none :: _, _ => none
  | some cluster :: rest, m => rangeClusters rest (GoMap.assign m cluster.Name cluster)

/-- The method `ClusterMeshConnectivity` (lines 103 to 126); `got` is what
`CiliumStatus` returned. The result is `none` when the method panics on a nil
pointer, and the two values returned otherwise. -/
def K8sStatusCollector.ClusterMeshConnectivity (_k : K8sStatusCollector)
    (got : Option StatusResponse × Option ClientErr) :
    Option (Option ClusterMeshAgentConnectivityStatus × Option ConnectivityError) :=
  let c : ClusterMeshAgentConnectivityStatus := { GlobalServices := 0, Clusters := [], Errors := [] }
  match got.2 with
  | some err => some (none, some (ConnectivityError.client err))
  | none =>
    match got.1 with
    | none => none
    | some status =>
      match status.ClusterMesh with
      | none => some (none, some ErrClusterMeshStatusNotAvailable)
      | some mesh =>
        let c := { c with GlobalServices := mesh.NumGlobalServices }
        match rangeClusters mesh.Clusters c.Clusters with
        | none => none
        | some clusters => some (some { c with Clusters := clusters }, none)

/-- The method `KVStoreMeshConnectivity` (lines 128 to 146); `got` is what
`KVStoreMeshStatus` returned, a nil slice being the empty list. The result is
`none` when the method panics on a nil pointer, and the two values returned
otherwise. -/
def K8sStatusCollector.KVStoreMeshConnectivity (_k : K8sStatusCollector)
    (got : List (Option RemoteCluster) × Option ClientErr) :
    Option (Option ClusterMeshAgentConnectivityStatus × Option ConnectivityError) :=
  let c : ClusterMeshAgentConnectivityStatus := { GlobalServices := 0, Clusters := [], Errors := [] }
  match got.2 with
  | some err => some (none, some (ConnectivityError.client err))
  | none =>
    match rangeClusters got.1 c.Clusters with
    | none => none
    | some clusters => some (some { c with Clusters := clusters }, none)

/-- The notion "the last reported cluster carrying the name `name`". -/
def lastReported (reported : List RemoteCluster) (name : String) : Option RemoteCluster :=
  (reported.filter fun cluster => cluster.Name = name).getLast?

/-! ## The polling loop

The method `Status` comes last: after it, the name `Status` inside a definition of
`K8sStatusCollector` means the method, and the report type is `CiliumCli.Status`. -/

/-- The error of a context that is done, `ctx.Err()`; `other` stands for an error
for which `errors.Is(err, context.Canceled)` is false. -/
inductive CtxErr where
  | Canceled
  | DeadlineExceeded
  | other (message : String)
  deriving DecidableEq, Repr

/-- The message of a context error. -/
def CtxErr.Error : CtxErr → String
  | .Canceled => "context canceled"
  | .DeadlineExceeded => "context deadline exceeded"
  | .other message => message

/-- The error `Status` builds with `fmt.Errorf("...: %w", ctx.Err())`: `text` is
the format ahead of the colon, `wrapped` the error `%w` wraps. -/
structure WaitError where
  text : String
  wrapped : CtxErr
  deriving DecidableEq, Repr

/-- The message of a `WaitError`. -/
def WaitError.Error (e : WaitError) : String := e.text ++ ": " ++ e.wrapped.Error

/-- The state of the context `context.WithTimeout(ctx, timeout)` when line 368 has
made it, `some err` when it is done with `ctx.Err() = err`: a context made from a
caller's context that is done is done with the error of that context, and a
context made with a timeout that is not positive is done with
`DeadlineExceeded`; `callerDone` is the state of the caller's context on entry. -/
def contextWithTimeout (callerDone : Option CtxErr) (timeout : Int) : Option CtxErr :=
  match callerDone with
  | some e => some e
  | none => if timeout ≤ 0 then some CtxErr.DeadlineExceeded else none

/-- One turn of the loop of `Status`, as the environment decides it: `done` is
what the `select` on `ctx.Done()` finds (`some err` when the context made on
line 368 is done, with `err = ctx.Err()`): its deadline has passed, the caller's
context is done, or an agent task of an earlier turn has called `cancel()`
(line 729). `collected` is the report `k.status(ctx, cancel)` returns when the
turn gets that far, `none` when that call never returns: a task that calls
`status.mutex.Lock()` on line 556, 587 or 617 holds the mutex since line 538,
569 or 600, so it blocks and `wp.Drain()` waits for it. -/
structure Round where
  done : Option CtxErr
  collected : Option Status
  deriving DecidableEq, Repr

/-- What `Status` returns, with the number of calls to `k.status` it made. -/
structure StatusReturn where
  status : Option Status
  err : Option WaitError
  collections : Nat
  deriving DecidableEq, Repr

/-- The loop of `Status` (lines 372 to 401) from the state `mostRecentStatus`,
after `n` collections. The list holds the turns the environment provides; `none`
means that `Status` does not return: a collection does not return, or the loop is
still running when the list ends. `k.status` returns the pointer `newStatus` made
on line 475, so the test of line 385 always passes. Sleeping and the interactive
redraw (lines 389 to 395 and 399) only touch the clock and the terminal. -/
def K8sStatusCollector.StatusLoop (k : K8sStatusCollector) :
    List Round → Option Status → Nat → Option StatusReturn
  | [], _, _ => none
  | r :: rest, mostRecentStatus, n =>
    match r.done with
    | some e =>
      if e = CtxErr.Canceled then
        some ⟨mostRecentStatus,
          some ⟨"wait canceled, cilium agent container has crashed or was terminated", e⟩, n⟩
      else
        some ⟨mostRecentStatus,
          some ⟨"timeout while waiting for status to become successful", e⟩, n⟩
    | none =>
      match r.collected with
      | none => none
      | some s =>
        let mostRecentStatus := some s
        if !k.statusIsReady s && k.params.Wait then
          k.StatusLoop rest mostRecentStatus (n + 1)
        else
          some ⟨mostRecentStatus, none, n + 1⟩

/-- The method `Status` (lines 365 to 402), called with a context whose state on
entry is `callerDone`. A context that is done when line 368 has made it is done at
the first `select`, whatever the turns are; otherwise the turns decide. -/
def K8sStatusCollector.Status (k : K8sStatusCollector) (callerDone : Option CtxErr)
    (rounds : List Round) : Option StatusReturn :=
  match contextWithTimeout callerDone k.params.waitTimeout with
  | some e => k.StatusLoop [⟨some e, none⟩] none 0
  | none => k.StatusLoop rounds none 0

/-! ## Sample inputs -/

/-- Parameters that wait for readiness, with the defaults otherwise. -/
def sampleWaitParams : K8sStatusParameters :=
  { Namespace := "kube-system", Wait := true, WaitDuration := 0, WarningFreePods := [],
    IgnoreWarnings := false, WorkerCount := 0, Output := "summary", HelmReleaseName := "cilium",
    Interactive := false, Verbose := false }

/-- A report with one error: one pod of the operator deployment is not ready. -/
def sampleFailingStatus : Status :=
  newStatus.AddAggregatedError "cilium-operator" "cilium-operator"
    (GoError.deploymentPodsNotReady 1 "cilium-operator")

/-- A report with one warning: the agent pod `cilium-abc` is pending. -/
def samplePendingStatus : Status :=
  newStatus.AddAggregatedWarning "cilium" "cilium-abc" GoError.podIsPending

/-- The notion "a warning is recorded for the pod `podName`": the warnings stored
under that pod name, for any component. -/
def Status.podWarnings (s : Status) (podName : String) : List GoError :=
  s.Errors.flatMap fun component =>
    (component.2.filter fun pod => pod.1 = podName).flatMap fun pod => pod.2.Warnings

/-- A pending agent pod. -/
def samplePendingPod : Pod :=
  { Name := "cilium-abc", Namespace := "kube-system", HostNetwork := true, Phase := PodPending,
    Reason := "", Message := "", Images := ["quay.io/cilium/cilium:v1.17.0"] }

/-- A collector that waits and requires the pod `cilium-abc` to be warning free. -/
def samplePodNameCollector : K8sStatusCollector :=
  ⟨{ sampleWaitParams with WarningFreePods := ["cilium-abc"] }⟩

/-- The report `podStatus` builds for the component `cilium` when the pod listed
is `samplePendingPod`. -/
def samplePodStatusReport : Status :=
  (samplePodNameCollector.podStatus (σ := Unit) (some ⟨[samplePendingPod]⟩, none) newStatus
    "cilium" none ()).2.1

/-- A deployment status as an API server returns it: the status validation of
Kubernetes rejects a status with more ready replicas than replicas. Of its rules,
this is the one `deploymentStatus` depends on. -/
def Deployment.validated (d : Deployment) : Prop :=
  d.ReadyReplicas ≤ d.Replicas

/-- A deployment in the middle of a rollout that the controller has not observed:
one of three replicas is updated and ready. -/
def sampleRollingDeployment : Deployment :=
  { Generation := 2, ObservedGeneration := 1, Replicas := 3, UpdatedReplicas := 1,
    ReadyReplicas := 1, AvailableReplicas := 1, UnavailableReplicas := 2 }

/-- A deployment with every replica updated, ready and available. -/
def sampleHealthyDeployment : Deployment :=
  { Generation := 1, ObservedGeneration := 1, Replicas := 2, UpdatedReplicas := 2,
    ReadyReplicas := 2, AvailableReplicas := 2, UnavailableReplicas := 0 }

/-- The notion "a listed pod that is not host-network and whose phase is Running or
Pending". -/
def countedPod (pod : Pod) : Bool :=
  !pod.HostNetwork && (pod.Phase == PodRunning || pod.Phase == PodPending)

/-- A status error of the API server with the code 404. -/
def sampleNotFound : ClientErr :=
  { statusCode := some 404, isNotFound := true,
    message := "the server could not find the requested resource" }

/-- A running pod that is not on the host network. -/
def sampleRunningPod : Pod :=
  { Name := "coredns-1", Namespace := "kube-system", HostNetwork := false, Phase := PodRunning,
    Reason := "", Message := "", Images := ["registry.k8s.io/coredns/coredns:v1.11.1"] }

/-- Three reported clusters, two of them under the name `west`. -/
def sampleReported : List RemoteCluster :=
  [ { Name := "west", Connected := false, Ready := false, NumNodes := 0, Status := "connecting" },
    { Name := "east", Connected := true, Ready := true, NumNodes := 3, Status := "ready" },
    { Name := "west", Connected := true, Ready := true, NumNodes := 2, Status := "ready" } ]

/-- An answer of the agent without a `ClusterMesh` section. -/
def sampleNoMesh : StatusResponse := { ClusterMesh := none }

/-- An error of the client that is not a status error. -/
def sampleExecFailed : ClientErr :=
  { statusCode := none, isNotFound := false, message := "command terminated with exit code 1" }

/-- The result of `KVStoreMeshConnectivity` for `sampleReported`. -/
def sampleKVStoreMeshResult : ClusterMeshAgentConnectivityStatus :=
  { GlobalServices := 0,
    Clusters :=
      [ ("west", { Name := "west", Connected := true, Ready := true, NumNodes := 2,
                   Status := "ready" }),
        ("east", { Name := "east", Connected := true, Ready := true, NumNodes := 3,
                   Status := "ready" }) ],
    Errors := [] }

/-- The names of the components and of their containers in a default
installation. -/
def sampleDefaults : Defaults :=
  { AgentDaemonSetName := "cilium", AgentContainerName := "cilium-agent",
    EnvoyDaemonSetName := "cilium-envoy", OperatorDeploymentName := "cilium-operator",
    OperatorContainerName := "cilium-operator", RelayDeploymentName := "hubble-relay",
    RelayContainerName := "hubble-relay", HubbleUIDeploymentName := "hubble-ui",
    ClusterMeshDeploymentName := "clustermesh-apiserver",
    ClusterMeshContainerName := "apiserver", ConfigMapName := "cilium-config" }

/-- A pod of the namespace `kube-system` with the given name and phase. -/
def samplePod (name phase : String) : Pod :=
  { Name := name, Namespace := "kube-system", HostNetwork := true, Phase := phase,
    Reason := "", Message := "", Images := [] }

/-! ## Facts about the embedding -/

/-- The text of the error `Status` returns for a context error `e`. -/
def waitErrorText (e : CtxErr) : String :=
  if e = CtxErr.Canceled then
    "wait canceled, cilium agent container has crashed or was terminated"
  else "timeout while waiting for status to become successful"

theorem StatusLoop_done (k : K8sStatusCollector) (r : Round) (rest : List Round)
    (m : Option Status) (n : Nat) (e : CtxErr) (h : r.done = some e) :
    k.StatusLoop (r :: rest) m n = some ⟨m, some ⟨waitErrorText e, e⟩, n⟩ := by
  unfold K8sStatusCollector.StatusLoop
  simp only [h, waitErrorText]
  split <;> rfl

theorem StatusLoop_collect (k : K8sStatusCollector) (r : Round) (rest : List Round)
    (m : Option Status) (n : Nat) (s : Status) (h : r.done = none)
    (hc : r.collected = some s) :
    k.StatusLoop (r :: rest) m n =
      if (!k.statusIsReady s && k.params.Wait) = true then
        k.StatusLoop rest (some s) (n + 1)
      else some ⟨some s, none, n + 1⟩ := by
  conv_lhs => unfold K8sStatusCollector.StatusLoop
  simp only [h, hc]

theorem StatusLoop_blocked (k : K8sStatusCollector) (r : Round) (rest : List Round)
    (m : Option Status) (n : Nat) (h : r.done = none) (hc : r.collected = none) :
    k.StatusLoop (r :: rest) m n = none := by
  unfold K8sStatusCollector.StatusLoop
  simp only [h, hc]

theorem StatusLoop_success (k : K8sStatusCollector) (hwait : k.params.Wait = true) :
    ∀ (rounds : List Round) (m : Option Status) (n : Nat) (r : StatusReturn),
      k.StatusLoop rounds m n = some r → r.err = none →
      ∃ i last s, r.collections = n + i + 1 ∧ rounds[i]? = some last ∧
        last.collected = some s ∧ r.status = some s ∧ k.statusIsReady s = true := by
  intro rounds
  induction rounds with
  | nil => intro m n r h; simp [K8sStatusCollector.StatusLoop] at h
  | cons x rest ih =>
    intro m n r h herr
    cases hd : x.done with
    | some e =>
      rw [StatusLoop_done k x rest m n e hd] at h
      cases h
      simp at herr
    | none =>
      cases hc : x.collected with
      | none =>
        rw [StatusLoop_blocked k x rest m n hd hc] at h
        cases h
      | some s =>
        rw [StatusLoop_collect k x rest m n s hd hc] at h
        cases hready : k.statusIsReady s with
        | true =>
          simp only [hready, hwait, Bool.not_true, Bool.false_and, Bool.false_eq_true,
            if_false, Option.some.injEq] at h
          subst h
          exact ⟨0, x, s, rfl, by simp, hc, rfl, hready⟩
        | false =>
          simp only [hready, hwait, Bool.not_false, Bool.and_self, if_true] at h
          obtain ⟨i, last, t, hcnt, hi, hl, hs, hr⟩ := ih (some s) (n + 1) r h herr
          exact ⟨i + 1, last, t, by omega, by simpa using hi, hl, hs, hr⟩

theorem StatusLoop_continue (k : K8sStatusCollector) :
    ∀ (before : List Round) (tail : List Round) (m : Option Status) (n : Nat),
      (∀ x ∈ before, x.done = none ∧
        ∃ s, x.collected = some s ∧ k.statusIsReady s = false ∧ k.params.Wait = true) →
      k.StatusLoop (before ++ tail) m n =
        k.StatusLoop tail ((before.getLast?.bind Round.collected).or m) (n + before.length) := by
  intro before
  induction before with
  | nil => intro tail m n _; simp
  | cons x rest ih =>
    intro tail m n h
    obtain ⟨hx, s, hc, hready, hwait⟩ := h x (List.mem_cons_self _ _)
    have hrest : ∀ y ∈ rest, y.done = none ∧
        ∃ s, y.collected = some s ∧ k.statusIsReady s = false ∧ k.params.Wait = true :=
      fun y hy => h y (List.mem_cons_of_mem _ hy)
    rw [List.cons_append, StatusLoop_collect k x (rest ++ tail) m n s hx hc]
    simp only [hready, hwait, Bool.not_false, Bool.and_self, if_true]
    rw [ih tail (some s) (n + 1) hrest]
    congr 1
    · cases rest with
      | nil => simp [hc]
      | cons y ys =>
        obtain ⟨_, t, ht, _⟩ :=
          hrest ((y :: ys).getLast (by simp)) (List.getLast_mem _)
        rw [List.getLast?_cons_cons, List.getLast?_eq_getLast (y :: ys) (by simp)]
        simp [ht]
    · simp; omega

theorem Status_made_done (k : K8sStatusCollector) (callerDone : Option CtxErr)
    (rounds : List Round) (e : CtxErr)
    (h : contextWithTimeout callerDone k.params.waitTimeout = some e) :
    k.Status callerDone rounds = some ⟨none, some ⟨waitErrorText e, e⟩, 0⟩ := by
  unfold K8sStatusCollector.Status
  simp only [h]
  exact StatusLoop_done k _ _ none 0 e rfl

theorem Status_made_live (k : K8sStatusCollector) (callerDone : Option CtxErr)
    (rounds : List Round) (h : contextWithTimeout callerDone k.params.waitTimeout = none) :
    k.Status callerDone rounds = k.StatusLoop rounds none 0 := by
  unfold K8sStatusCollector.Status
  simp only [h]

/-- C1: with `Wait = true`, when `Status` returns a nil error, the status returned
is the report of the last collection made and `statusIsReady` holds for it. -/
theorem status_wait_success_is_ready (k : K8sStatusCollector) (callerDone : Option CtxErr)
    (rounds : List Round) (r : StatusReturn) (hwait : k.params.Wait = true)
    (hret : k.Status callerDone rounds = some r) (herr : r.err = none) :
    ∃ i last s, r.collections = i + 1 ∧ rounds[i]? = some last ∧
      last.collected = some s ∧ r.status = some s ∧ k.statusIsReady s = true := by
  cases hmade : contextWithTimeout callerDone k.params.waitTimeout with
  | some e =>
    rw [Status_made_done k callerDone rounds e hmade] at hret
    cases hret
    simp at herr
  | none =>
    rw [Status_made_live k callerDone rounds hmade] at hret
    obtain ⟨i, last, s, hc, hi, hl, hs, hr⟩ := StatusLoop_success k hwait rounds none 0 r hret herr
    exact ⟨i, last, s, by omega, hi, hl, hs, hr⟩

theorem status_wait_success_is_ready_witness :
    ∃ i last s, (2 : Nat) = i + 1 ∧
      [Round.mk none (some sampleFailingStatus), Round.mk none (some newStatus)][i]? =
        some last ∧
      last.collected = some s ∧ some newStatus = some s ∧
      K8sStatusCollector.statusIsReady ⟨sampleWaitParams⟩ s = true :=
  status_wait_success_is_ready ⟨sampleWaitParams⟩ none
    [Round.mk none (some sampleFailingStatus), Round.mk none (some newStatus)]
    ⟨some newStatus, none, 2⟩ rfl (by decide) rfl

/-- C2, as stated, fails: with `Wait = false`, `WaitDuration = -1` and a caller's
context that is not done on entry, the context made on line 368 is done at once:
`Status` makes no collection and returns a nil status with the timeout error. -/
theorem status_nowait_expired_counterexample :
    ({ sampleWaitParams with Wait := false, WaitDuration := -1 } : K8sStatusParameters).Wait
      = false ∧
    K8sStatusCollector.Status ⟨{ sampleWaitParams with Wait := false, WaitDuration := -1 }⟩
        none [Round.mk none (some newStatus)] =
      some ⟨none,
        some ⟨"timeout while waiting for status to become successful",
          CtxErr.DeadlineExceeded⟩, 0⟩ := by
  decide

/-- C2, amended: with `Wait = false`, a caller's context that is not done on
entry, a wait timeout that is positive and a first check that finds the context
of line 368 not done, if the collection returns then `Status` has made exactly one
collection and returns its report with a nil error, ready or not, and the result
is the same for every value of `WarningFreePods` and `IgnoreWarnings`. With a wait
timeout that is not positive, `Status` makes no collection and returns a nil
status with the timeout error. -/
theorem status_nowait_single_collection (p : K8sStatusParameters) (r : Round)
    (rest : List Round) (s : Status) :
    (p.Wait = false → 0 < p.waitTimeout → r.done = none → r.collected = some s →
      K8sStatusCollector.Status ⟨p⟩ none (r :: rest) = some ⟨some s, none, 1⟩ ∧
      ∀ (pods : List String) (ignore : Bool),
        K8sStatusCollector.Status ⟨{ p with WarningFreePods := pods, IgnoreWarnings := ignore }⟩
          none (r :: rest) = K8sStatusCollector.Status ⟨p⟩ none (r :: rest)) ∧
    (p.waitTimeout ≤ 0 → ∀ rounds : List Round,
      K8sStatusCollector.Status ⟨p⟩ none rounds =
        some ⟨none,
          some ⟨"timeout while waiting for status to become successful",
            CtxErr.DeadlineExceeded⟩, 0⟩) := by
  constructor
  · intro hwait hpos hdone hcol
    have key : ∀ q : K8sStatusParameters, q.Wait = false → q.waitTimeout = p.waitTimeout →
        K8sStatusCollector.Status ⟨q⟩ none (r :: rest) = some ⟨some s, none, 1⟩ := by
      intro q hq ht
      have hmade : contextWithTimeout none (K8sStatusCollector.mk q).params.waitTimeout = none := by
        have : ¬ q.waitTimeout ≤ 0 := by omega
        simp [contextWithTimeout, this]
      rw [Status_made_live _ none _ hmade, StatusLoop_collect _ r rest none 0 s hdone hcol]
      simp [hq]
    refine ⟨key p hwait rfl, fun pods ignore => ?_⟩
    rw [key p hwait rfl]
    exact key _ hwait rfl
  · intro hneg rounds
    have hmade : contextWithTimeout none (K8sStatusCollector.mk p).params.waitTimeout =
        some CtxErr.DeadlineExceeded := by
      simp [contextWithTimeout, hneg]
    rw [Status_made_done _ none rounds _ hmade]
    rfl

theorem status_nowait_single_collection_witness :
    K8sStatusCollector.Status ⟨{ sampleWaitParams with Wait := false }⟩ none
        [Round.mk none (some sampleFailingStatus)] = some ⟨some sampleFailingStatus, none, 1⟩ ∧
    ∀ (pods : List String) (ignore : Bool),
      K8sStatusCollector.Status
        ⟨{ ({ sampleWaitParams with Wait := false } : K8sStatusParameters) with
            WarningFreePods := pods, IgnoreWarnings := ignore }⟩ none
        [Round.mk none (some sampleFailingStatus)] =
      K8sStatusCollector.Status ⟨{ sampleWaitParams with Wait := false }⟩ none
        [Round.mk none (some sampleFailingStatus)] :=
  (status_nowait_single_collection { sampleWaitParams with Wait := false }
    (Round.mk none (some sampleFailingStatus)) [] sampleFailingStatus).1 rfl (by decide) rfl rfl

/-- C3: when `Status` finds its context done, it returns the most recent report
collected (nil exactly when there was no collection) and a non-nil error that
wraps `ctx.Err()`, whose text is "wait canceled, cilium agent container has
crashed or was terminated" when that error is `Canceled` and "timeout while
waiting for status to become successful" otherwise. This holds when the context is
found done after the turns `before`, each of which collected a report that was
not ready while waiting, and when the context is done as soon as line 368 has
made it, ahead of any collection. -/
theorem status_gives_up_when_context_done (k : K8sStatusCollector)
    (callerDone : Option CtxErr) (before : List Round)
    (r : Round) (rest : List Round) (e : CtxErr)
    (hcont : ∀ x ∈ before, x.done = none ∧
      ∃ s, x.collected = some s ∧ k.statusIsReady s = false ∧ k.params.Wait = true)
    (hdone : r.done = some e) :
    (contextWithTimeout callerDone k.params.waitTimeout = none →
      k.Status callerDone (before ++ r :: rest) =
        some ⟨before.getLast?.bind Round.collected,
          some ⟨if e = CtxErr.Canceled then
              "wait canceled, cilium agent container has crashed or was terminated"
            else "timeout while waiting for status to become successful", e⟩,
          before.length⟩) ∧
    (∀ (made : CtxErr) (rounds : List Round),
      contextWithTimeout callerDone k.params.waitTimeout = some made →
      k.Status callerDone rounds =
        some ⟨none,
          some ⟨if made = CtxErr.Canceled then
              "wait canceled, cilium agent container has crashed or was terminated"
            else "timeout while waiting for status to become successful", made⟩,
          0⟩) ∧
    (before.getLast?.bind Round.collected = none ↔ before = []) := by
  refine ⟨fun hmade => ?_, fun made rounds hmade => ?_, ?_⟩
  · rw [Status_made_live k callerDone _ hmade,
      StatusLoop_continue k before (r :: rest) none 0 hcont,
      StatusLoop_done k r rest _ _ e hdone]
    simp [waitErrorText]
  · rw [Status_made_done k callerDone rounds made hmade]
    rfl
  · cases before with
    | nil => simp
    | cons x xs =>
      obtain ⟨_, t, ht, _⟩ := hcont ((x :: xs).getLast (by simp)) (List.getLast_mem _)
      simp [List.getLast?_eq_getLast (x :: xs) (by simp), ht]

theorem status_gives_up_when_context_done_witness :
    K8sStatusCollector.Status ⟨sampleWaitParams⟩ none
        ([Round.mk none (some sampleFailingStatus)] ++
          Round.mk (some CtxErr.DeadlineExceeded) none :: []) =
      some ⟨[Round.mk none (some sampleFailingStatus)].getLast?.bind Round.collected,
        some ⟨if CtxErr.DeadlineExceeded = CtxErr.Canceled then
            "wait canceled, cilium agent container has crashed or was terminated"
          else "timeout while waiting for status to become successful",
          CtxErr.DeadlineExceeded⟩,
        [Round.mk none (some sampleFailingStatus)].length⟩ ∧
    ([Round.mk none (some sampleFailingStatus)].getLast?.bind Round.collected = none ↔
      [Round.mk none (some sampleFailingStatus)] = []) :=
  ⟨(status_gives_up_when_context_done ⟨sampleWaitParams⟩ none
      [Round.mk none (some sampleFailingStatus)]
      (Round.mk (some CtxErr.DeadlineExceeded) none) [] CtxErr.DeadlineExceeded
      (by decide) rfl).1 (by decide),
    (status_gives_up_when_context_done ⟨sampleWaitParams⟩ none
      [Round.mk none (some sampleFailingStatus)]
      (Round.mk (some CtxErr.DeadlineExceeded) none) [] CtxErr.DeadlineExceeded
      (by decide) rfl).2.2⟩

/-- C4: with `WarningFreePods` empty, `statusIsReady` holds exactly when the report
has no errors and either `IgnoreWarnings` is set or it has no warnings; so with
`IgnoreWarnings = true` the warnings play no part. -/
theorem statusIsReady_without_warningFreePods (k : K8sStatusCollector) (s : Status)
    (hempty : k.params.WarningFreePods = []) :
    (k.statusIsReady s = true ↔
      s.totalErrors = 0 ∧ (k.params.IgnoreWarnings = true ∨ s.totalWarnings = 0)) ∧
    (k.params.IgnoreWarnings = true → (k.statusIsReady s = true ↔ s.totalErrors = 0)) := by
  have main : k.statusIsReady s = true ↔
      s.totalErrors = 0 ∧ (k.params.IgnoreWarnings = true ∨ s.totalWarnings = 0) := by
    unfold K8sStatusCollector.statusIsReady
    rw [hempty]
    by_cases he : s.totalErrors > 0
    · simp [he]; omega
    · have he0 : s.totalErrors = 0 := by omega
      cases hi : k.params.IgnoreWarnings <;> simp [he0, hi]
  refine ⟨main, fun hi => ?_⟩
  rw [main]
  simp [hi]

theorem statusIsReady_without_warningFreePods_witness :
    (K8sStatusCollector.statusIsReady ⟨sampleWaitParams⟩ samplePendingStatus = true ↔
      samplePendingStatus.totalErrors = 0 ∧
        (sampleWaitParams.IgnoreWarnings = true ∨ samplePendingStatus.totalWarnings = 0)) ∧
    (sampleWaitParams.IgnoreWarnings = true →
      (K8sStatusCollector.statusIsReady ⟨sampleWaitParams⟩ samplePendingStatus = true ↔
        samplePendingStatus.totalErrors = 0)) :=
  statusIsReady_without_warningFreePods ⟨sampleWaitParams⟩ samplePendingStatus rfl

/-- C6: with a non-empty `WarningFreePods`, `statusIsReady` gives the same answer
with `IgnoreWarnings = true` as with `IgnoreWarnings = false`. -/
theorem statusIsReady_flag_meaningless (p : K8sStatusParameters) (s : Status)
    (hpods : p.WarningFreePods ≠ []) :
    K8sStatusCollector.statusIsReady ⟨{ p with IgnoreWarnings := true }⟩ s =
      K8sStatusCollector.statusIsReady ⟨{ p with IgnoreWarnings := false }⟩ s := by
  unfold K8sStatusCollector.statusIsReady
  have hlen : (p.WarningFreePods.length == 0) = false := by
    cases hp : p.WarningFreePods with
    | nil => exact absurd hp hpods
    | cons a l => simp
  simp [hlen]

theorem statusIsReady_flag_meaningless_witness :
    K8sStatusCollector.statusIsReady
        ⟨{ ({ sampleWaitParams with WarningFreePods := ["cilium"] } : K8sStatusParameters) with
            IgnoreWarnings := true }⟩ samplePendingStatus =
      K8sStatusCollector.statusIsReady
        ⟨{ ({ sampleWaitParams with WarningFreePods := ["cilium"] } : K8sStatusParameters) with
            IgnoreWarnings := false }⟩ samplePendingStatus :=
  statusIsReady_flag_meaningless { sampleWaitParams with WarningFreePods := ["cilium"] }
    samplePendingStatus (by decide)

/-- C8: the pool `status` creates has size `WorkerCount` when that is at least 1
and `DefaultWorkerCount = 5` otherwise, so its size is always at least 1. -/
theorem workerCount_bounded (k : K8sStatusCollector) :
    k.workerCount = (if k.params.WorkerCount ≥ 1 then k.params.WorkerCount else 5) ∧
    DefaultWorkerCount = 5 ∧ k.workerCount ≥ 1 := by
  unfold K8sStatusCollector.workerCount DefaultWorkerCount
  by_cases h : k.params.WorkerCount < 1
  · have h' : ¬ k.params.WorkerCount ≥ 1 := by omega
    simp [h, h']
  · have h' : k.params.WorkerCount ≥ 1 := by omega
    simp [h, h']

theorem GoMap.mem_of_index {α : Type} (m : GoMap α) (k : String) (v : α)
    (h : GoMap.index m k = some v) : (k, v) ∈ m := by
  induction m with
  | nil => simp [GoMap.index] at h
  | cons x rest ih =>
    obtain ⟨k', v'⟩ := x
    unfold GoMap.index at h
    by_cases hk : k' = k
    · simp only [hk, if_true, Option.some.injEq] at h
      subst h; subst hk
      exact List.mem_cons_self _ _
    · simp only [hk, if_false] at h
      exact List.mem_cons_of_mem _ (ih h)

/-- C5, at a failing input: `podStatus` records the warning "pod is pending" for the
pod `cilium-abc` of the component `cilium`; with `WarningFreePods = ["cilium-abc"]`
and `IgnoreWarnings = false`, `statusIsReady` returns true although a warning is
recorded for the listed pod. -/
theorem statusIsReady_ignores_listed_pod :
    "cilium-abc" ∈ samplePodNameCollector.params.WarningFreePods ∧
    samplePodNameCollector.params.IgnoreWarnings = false ∧
    samplePodNameCollector.statusIsReady samplePodStatusReport = true ∧
    samplePodStatusReport.podWarnings "cilium-abc" = [GoError.podIsPending] ∧
    (samplePodStatusReport.aggregatedErrorCount "cilium" "cilium-abc").Warnings =
      [GoError.podIsPending] := by
  decide

/-- What `statusIsReady` does with a name listed in `WarningFreePods`: when it
returns true, no warning and no error is stored under the component of that
name, for any of its pods. -/
theorem warningFreePods_component_is_clean (k : K8sStatusCollector) (s : Status)
    (name : String) (hname : name ∈ k.params.WarningFreePods)
    (hready : k.statusIsReady s = true) :
    (∀ pods, GoMap.index s.Errors name = some pods →
      ∀ c ∈ pods, c.2.Warnings = [] ∧ c.2.Errors = []) ∧
    ∀ podName, (s.aggregatedErrorCount name podName).Warnings = [] ∧
      (s.aggregatedErrorCount name podName).Errors = [] := by
  have hall : ∀ pods, GoMap.index s.Errors name = some pods →
      ∀ c ∈ pods, c.2.Warnings = [] ∧ c.2.Errors = [] := by
    intro pods hpods c hc
    unfold K8sStatusCollector.statusIsReady at hready
    split at hready
    · exact absurd hready (by simp)
    · split at hready
      · exact absurd hready (by simp)
      · rw [List.all_eq_true] at hready
        have h1 := hready name hname
        rw [hpods] at h1
        simp only [List.all_eq_true] at h1
        have h2 := h1 c hc
        simp only [Bool.not_eq_true', Bool.or_eq_false_iff, decide_eq_false_iff_not,
          not_lt, Nat.le_zero_eq, List.length_eq_zero] at h2
        exact h2
  refine ⟨hall, fun podName => ?_⟩
  unfold Status.aggregatedErrorCount
  cases hidx : GoMap.index s.Errors name with
  | none => simp [GoMap.index]
  | some pods =>
    cases hpod : GoMap.index pods podName with
    | none => simp [hpod]
    | some c =>
      have := hall pods hidx (podName, c) (GoMap.mem_of_index pods podName c hpod)
      simpa [hpod] using this

/-- C7, at a failing input: the pod-count task, run on a fresh report when both
list calls succeed, writes `PodsCount` without having locked the mutex. -/
theorem podCountTask_writes_without_mutex :
    ((⟨sampleWaitParams⟩ : K8sStatusCollector).podCountTask (some ⟨[samplePendingPod]⟩, none)
        (some ⟨[]⟩, none) newStatus).1.trace = [Access.write Field.PodsCount] ∧
    unguardedWrites false
      ((⟨sampleWaitParams⟩ : K8sStatusCollector).podCountTask (some ⟨[samplePendingPod]⟩, none)
        (some ⟨[]⟩, none) newStatus).1.trace = [Field.PodsCount] := by
  decide

theorem GoMap.index_assign_same {α : Type} (m : GoMap α) (k : String) (v : α) :
    GoMap.index (GoMap.assign m k v) k = some v := by
  induction m with
  | nil => simp [GoMap.assign, GoMap.index]
  | cons x rest ih =>
    obtain ⟨k', v'⟩ := x
    unfold GoMap.assign
    by_cases hk : k' = k
    · simp [hk, GoMap.index]
    · simp [hk, GoMap.index, ih]

theorem aggregatedErrorCount_setErrorCount (s : Status) (name podName : String)
    (c : ErrorCount) : (s.setErrorCount name podName c).aggregatedErrorCount name podName = c := by
  simp [Status.setErrorCount, Status.aggregatedErrorCount, GoMap.index_assign_same]

theorem aggregatedErrorCount_AddAggregatedError (s : Status) (name podName : String)
    (err : GoError) :
    (s.AddAggregatedError name podName err).aggregatedErrorCount name podName =
      { s.aggregatedErrorCount name podName with
        Errors := (s.aggregatedErrorCount name podName).Errors ++ [err] } := by
  unfold Status.AddAggregatedError Status.wrote
  exact aggregatedErrorCount_setErrorCount s name podName _

theorem aggregatedErrorCount_AddAggregatedWarning (s : Status) (name podName : String)
    (w : GoError) :
    (s.AddAggregatedWarning name podName w).aggregatedErrorCount name podName =
      { s.aggregatedErrorCount name podName with
        Warnings := (s.aggregatedErrorCount name podName).Warnings ++ [w] } := by
  unfold Status.AddAggregatedWarning Status.wrote
  exact aggregatedErrorCount_setErrorCount s name podName _

theorem PodState_AddAggregatedError (s : Status) (name podName : String) (err : GoError) :
    (s.AddAggregatedError name podName err).PodState = s.PodState := rfl

theorem PodState_AddAggregatedWarning (s : Status) (name podName : String) (w : GoError) :
    (s.AddAggregatedWarning name podName w).PodState = s.PodState := rfl

theorem aggregatedErrorCount_of_Errors (s t : Status) (h : s.Errors = t.Errors)
    (name podName : String) :
    s.aggregatedErrorCount name podName = t.aggregatedErrorCount name podName := by
  unfold Status.aggregatedErrorCount
  rw [h]

/-- The report of `deploymentStatus` for a deployment `d` returned without error,
ahead of the final `Unlock`, as a chain of conditional findings. -/
theorem deploymentStatus_some (k : K8sStatusCollector) (d : Deployment) (status : Status)
    (name : String) :
    k.deploymentStatus (some d, none) status name =
      (let s0 := ({ status.Lock with PodState := (GoMap.assign status.PodState name
            (PodStateCount.mk "Deployment" d.Replicas d.ReadyReplicas d.AvailableReplicas
              d.UnavailableReplicas)) }).wrote Field.PodState
       let s1 := if d.Replicas - d.ReadyReplicas > 0 then
          s0.AddAggregatedError name name
            (GoError.deploymentPodsNotReady (d.Replicas - d.ReadyReplicas) name) else s0
       let s2 := if d.UnavailableReplicas - (d.Replicas - d.ReadyReplicas) > 0 then
          s1.AddAggregatedWarning name name
            (GoError.deploymentPodsNotAvailable
              (d.UnavailableReplicas - (d.Replicas - d.ReadyReplicas)) name) else s1
       let s3 := if d.Generation ≠ d.ObservedGeneration then
          s2.AddAggregatedError name name (GoError.deploymentRolloutNotStarted name) else s2
       let s4 := if d.UpdatedReplicas < d.Replicas then
          s3.AddAggregatedError name name
            (GoError.deploymentRollingOut name d.UpdatedReplicas d.Replicas) else s3
       (s4.Unlock, false, none)) := rfl

theorem aggregatedErrorCount_Unlock (s : Status) (name podName : String) :
    s.Unlock.aggregatedErrorCount name podName = s.aggregatedErrorCount name podName := rfl

theorem condError_spec (c : Prop) [Decidable c] (s : Status) (name : String) (e : GoError) :
    (if c then s.AddAggregatedError name name e else s).PodState = s.PodState ∧
    ((if c then s.AddAggregatedError name name e else s).aggregatedErrorCount name name).Errors =
      (s.aggregatedErrorCount name name).Errors ++ (if c then [e] else []) ∧
    ((if c then s.AddAggregatedError name name e else s).aggregatedErrorCount name name).Warnings =
      (s.aggregatedErrorCount name name).Warnings ∧
    (¬ c → (if c then s.AddAggregatedError name name e else s).Errors = s.Errors) := by
  by_cases h : c
  · simp only [if_pos h]
    refine ⟨rfl, ?_, ?_, fun hn => absurd h hn⟩ <;>
      simp [aggregatedErrorCount_AddAggregatedError]
  · simp [h]

theorem condWarning_spec (c : Prop) [Decidable c] (s : Status) (name : String) (w : GoError) :
    (if c then s.AddAggregatedWarning name name w else s).PodState = s.PodState ∧
    ((if c then s.AddAggregatedWarning name name w else s).aggregatedErrorCount name name).Errors =
      (s.aggregatedErrorCount name name).Errors ∧
    ((if c then s.AddAggregatedWarning name name w else s).aggregatedErrorCount name name).Warnings =
      (s.aggregatedErrorCount name name).Warnings ++ (if c then [w] else []) ∧
    (¬ c → (if c then s.AddAggregatedWarning name name w else s).Errors = s.Errors) := by
  by_cases h : c
  · simp only [if_pos h]
    refine ⟨rfl, ?_, ?_, fun hn => absurd h hn⟩ <;>
      simp [aggregatedErrorCount_AddAggregatedWarning]
  · simp [h]

theorem findings_chain (s0 : Status) (name : String) (c1 c2 c3 c4 : Prop) [Decidable c1]
    [Decidable c2] [Decidable c3] [Decidable c4] (e1 w2 e3 e4 : GoError) :
    let s1 := if c1 then s0.AddAggregatedError name name e1 else s0
    let s2 := if c2 then s1.AddAggregatedWarning name name w2 else s1
    let s3 := if c3 then s2.AddAggregatedError name name e3 else s2
    let s4 := if c4 then s3.AddAggregatedError name name e4 else s3
    s4.Unlock.PodState = s0.PodState ∧
    (s4.Unlock.aggregatedErrorCount name name).Errors =
      (s0.aggregatedErrorCount name name).Errors ++ (if c1 then [e1] else [])
        ++ (if c3 then [e3] else []) ++ (if c4 then [e4] else []) ∧
    (s4.Unlock.aggregatedErrorCount name name).Warnings =
      (s0.aggregatedErrorCount name name).Warnings ++ (if c2 then [w2] else []) ∧
    (¬ c1 → ¬ c2 → ¬ c3 → ¬ c4 → s4.Unlock.Errors = s0.Errors) := by
  intro s1 s2 s3 s4
  obtain ⟨p1, a1, b1, n1⟩ := condError_spec c1 s0 name e1
  obtain ⟨p2, a2, b2, n2⟩ := condWarning_spec c2 s1 name w2
  obtain ⟨p3, a3, b3, n3⟩ := condError_spec c3 s2 name e3
  obtain ⟨p4, a4, b4, n4⟩ := condError_spec c4 s3 name e4
  refine ⟨?_, ?_, ?_, ?_⟩
  · show s4.PodState = _
    rw [p4, p3, p2, p1]
  · rw [aggregatedErrorCount_Unlock, a4, a3, a2, a1]
  · rw [aggregatedErrorCount_Unlock, b4, b3, b2, b1]
  · intro h1 h2 h3 h4
    show s4.Errors = _
    rw [n4 h4, n3 h3, n2 h2, n1 h1]

/-- What `deploymentStatus` records for a deployment `d` returned without error,
for every value of the counts: the value returned, `PodState[name]`, the errors
and the warnings appended to the findings of `name`. -/
theorem deploymentStatus_findings (k : K8sStatusCollector) (d : Deployment) (status : Status)
    (name : String) :
    (k.deploymentStatus (some d, none) status name).2 = (false, none) ∧
    GoMap.index (k.deploymentStatus (some d, none) status name).1.PodState name =
      some ⟨"Deployment", d.Replicas, d.ReadyReplicas, d.AvailableReplicas,
        d.UnavailableReplicas⟩ ∧
    ((k.deploymentStatus (some d, none) status name).1.aggregatedErrorCount name name).Errors =
      (status.aggregatedErrorCount name name).Errors
        ++ (if d.Replicas > d.ReadyReplicas then
              [GoError.deploymentPodsNotReady (d.Replicas - d.ReadyReplicas) name] else [])
        ++ (if d.Generation ≠ d.ObservedGeneration then
              [GoError.deploymentRolloutNotStarted name] else [])
        ++ (if d.UpdatedReplicas < d.Replicas then
              [GoError.deploymentRollingOut name d.UpdatedReplicas d.Replicas] else []) ∧
    ((k.deploymentStatus (some d, none) status name).1.aggregatedErrorCount name name).Warnings =
      (status.aggregatedErrorCount name name).Warnings
        ++ (if d.UnavailableReplicas > d.Replicas - d.ReadyReplicas then
              [GoError.deploymentPodsNotAvailable
                (d.UnavailableReplicas - (d.Replicas - d.ReadyReplicas)) name] else []) ∧
    (¬ d.Replicas > d.ReadyReplicas → d.Generation = d.ObservedGeneration →
      ¬ d.UpdatedReplicas < d.Replicas → d.UnavailableReplicas = 0 →
      d.ReadyReplicas ≤ d.Replicas →
      (k.deploymentStatus (some d, none) status name).1.Errors = status.Errors) := by
  rw [deploymentStatus_some]
  have c1 : (d.Replicas - d.ReadyReplicas > 0) ↔ d.Replicas > d.ReadyReplicas := by omega
  have c2 : (d.UnavailableReplicas - (d.Replicas - d.ReadyReplicas) > 0) ↔
      d.UnavailableReplicas > d.Replicas - d.ReadyReplicas := by omega
  simp only [c1, c2]
  obtain ⟨hp, he, hw, hn⟩ := findings_chain
    (({ status.Lock with PodState := (GoMap.assign status.PodState name
      (PodStateCount.mk "Deployment" d.Replicas d.ReadyReplicas d.AvailableReplicas
        d.UnavailableReplicas)) }).wrote Field.PodState) name
    (d.Replicas > d.ReadyReplicas) (d.UnavailableReplicas > d.Replicas - d.ReadyReplicas)
    (d.Generation ≠ d.ObservedGeneration) (d.UpdatedReplicas < d.Replicas)
    (GoError.deploymentPodsNotReady (d.Replicas - d.ReadyReplicas) name)
    (GoError.deploymentPodsNotAvailable (d.UnavailableReplicas - (d.Replicas - d.ReadyReplicas))
      name)
    (GoError.deploymentRolloutNotStarted name)
    (GoError.deploymentRollingOut name d.UpdatedReplicas d.Replicas)
  refine ⟨by trivial, ?_, ?_, ?_, ?_⟩
  · show GoMap.index (Status.PodState _) name = _
    rw [hp]
    exact GoMap.index_assign_same _ _ _
  · exact he
  · exact hw
  · intro n1 n3 n4 hu hle
    exact hn n1 (by omega) (by simpa using n3) n4

/-- C9: for every deployment `d` returned without error, whose status has
`ReadyReplicas` at most `Replicas` as an API server returns it, `deploymentStatus`
returns `(false, nil)`, sets `PodState[name]` to the counts of `d` with the type
"Deployment", and appends to the errors of `name`: a "not ready" error iff
`Replicas > ReadyReplicas`, a "rollout has not started" error iff the generation
is not the observed one, a "rolling out" error iff `UpdatedReplicas < Replicas`.
A deployment that meets none of these conditions, with `UnavailableReplicas = 0`,
gets no error and no warning. -/
theorem deploymentStatus_reports (k : K8sStatusCollector) (d : Deployment) (status : Status)
    (name : String) (hvalid : d.validated) :
    (k.deploymentStatus (some d, none) status name).2 = (false, none) ∧
    GoMap.index (k.deploymentStatus (some d, none) status name).1.PodState name =
      some ⟨"Deployment", d.Replicas, d.ReadyReplicas, d.AvailableReplicas,
        d.UnavailableReplicas⟩ ∧
    ((k.deploymentStatus (some d, none) status name).1.aggregatedErrorCount name name).Errors =
      (status.aggregatedErrorCount name name).Errors
        ++ (if d.Replicas > d.ReadyReplicas then
              [GoError.deploymentPodsNotReady (d.Replicas - d.ReadyReplicas) name] else [])
        ++ (if d.Generation ≠ d.ObservedGeneration then
              [GoError.deploymentRolloutNotStarted name] else [])
        ++ (if d.UpdatedReplicas < d.Replicas then
              [GoError.deploymentRollingOut name d.UpdatedReplicas d.Replicas] else []) ∧
    (¬ d.Replicas > d.ReadyReplicas → d.Generation = d.ObservedGeneration →
      ¬ d.UpdatedReplicas < d.Replicas → d.UnavailableReplicas = 0 →
      (k.deploymentStatus (some d, none) status name).1.Errors = status.Errors ∧
      (k.deploymentStatus (some d, none) status name).1.aggregatedErrorCount name name =
        status.aggregatedErrorCount name name) := by
  obtain ⟨h1, h2, h3, _, h5⟩ := deploymentStatus_findings k d status name
  refine ⟨h1, h2, h3, fun n1 n2 n3 hu => ?_⟩
  have herr := h5 n1 n2 n3 hu hvalid
  exact ⟨herr, aggregatedErrorCount_of_Errors _ _ herr name name⟩

theorem deploymentStatus_reports_witness :
    sampleRollingDeployment.validated ∧
    (((⟨sampleWaitParams⟩ : K8sStatusCollector).deploymentStatus
        (some sampleRollingDeployment, none) newStatus "cilium-operator").1.aggregatedErrorCount
        "cilium-operator" "cilium-operator").Errors =
      [GoError.deploymentPodsNotReady 2 "cilium-operator",
        GoError.deploymentRolloutNotStarted "cilium-operator",
        GoError.deploymentRollingOut "cilium-operator" 1 3] ∧
    ((⟨sampleWaitParams⟩ : K8sStatusCollector).deploymentStatus
        (some sampleHealthyDeployment, none) newStatus "cilium-operator").1.Errors =
      newStatus.Errors :=
  ⟨by unfold Deployment.validated; decide,
    (deploymentStatus_reports ⟨sampleWaitParams⟩ sampleRollingDeployment newStatus
      "cilium-operator" (by unfold Deployment.validated; decide)).2.2.1.trans (by decide),
    ((deploymentStatus_reports ⟨sampleWaitParams⟩ sampleHealthyDeployment newStatus
      "cilium-operator" (by unfold Deployment.validated; decide)).2.2.2
        (by decide) rfl (by decide) rfl).1⟩

theorem foldl_count (c : Pod → Bool) :
    ∀ (l : List Pod) (n : Int),
      l.foldl (fun n pod => if c pod = true then n + 1 else n) n = n + (l.countP c : Nat) := by
  intro l
  induction l with
  | nil => intro n; simp
  | cons x rest ih =>
    intro n
    rw [List.foldl_cons, ih, List.countP_cons]
    by_cases hx : c x = true
    · simp [hx]; omega
    · simp [hx]

theorem numberAllPod_eq (pods : Option PodList) :
    (match pods with
      | none => (0 : Int)
      | some pods =>
        if pods.Items.length ≠ 0 then
          pods.Items.foldl
            (fun n pod =>
              if !pod.HostNetwork && (pod.Phase == PodRunning || pod.Phase == PodPending)
              then n + 1 else n) 0
        else 0) = ((((pods.map PodList.Items).getD []).countP countedPod : Nat) : Int) := by
  cases pods with
  | none => simp
  | some l =>
    have h := foldl_count countedPod l.Items 0
    simp only [countedPod] at h
    cases hl : l.Items with
    | nil => simp [hl]
    | cons x rest =>
      rw [hl] at h
      simp only [List.length_cons, ne_eq, Nat.add_one_ne_zero, not_false_eq_true, if_true,
        Option.map_some', Option.getD_some, hl]
      rw [h]
      simp [countedPod]

/-- C10: when `ListCiliumEndpoints` fails with a status error of code 404 and no
list, `podCount` returns nil and sets `PodsCount` to the number of listed pods
that are not on the host network and are running or pending, with `ByCilium = 0`;
a status error with another code is returned and the report is left as it was. -/
theorem podCount_endpoints_not_registered (k : K8sStatusCollector) (pods : Option PodList)
    (err : ClientErr) (status : Status) :
    (err.statusCode = some StatusNotFound →
      (k.podCount (pods, none) (none, some err) status).2 = none ∧
      (k.podCount (pods, none) (none, some err) status).1.PodsCount =
        ⟨(((pods.map PodList.Items).getD []).countP countedPod : Nat), 0⟩) ∧
    (∀ (code : Int) (list : Option CiliumEndpointList), err.statusCode = some code →
      code ≠ StatusNotFound →
      k.podCount (pods, none) (list, some err) status = (status, some (GoError.client err)) ∧
      (k.podCount (pods, none) (list, some err) status).1.PodsCount = status.PodsCount) := by
  constructor
  · intro hcode
    unfold K8sStatusCollector.podCount
    simp only [hcode, ne_eq, not_true_eq_false, if_false]
    refine ⟨by trivial, ?_⟩
    simp only [Status.wrote]
    rw [numberAllPod_eq pods]
  · intro code list hcode hne
    unfold K8sStatusCollector.podCount
    simp only [hcode, ne_eq, hne, not_false_eq_true, if_true]
    exact ⟨by trivial, by trivial⟩

theorem podCount_endpoints_not_registered_witness :
    ((⟨sampleWaitParams⟩ : K8sStatusCollector).podCount
        (some ⟨[sampleRunningPod, samplePendingPod]⟩, none) (none, some sampleNotFound)
        newStatus).2 = none ∧
    ((⟨sampleWaitParams⟩ : K8sStatusCollector).podCount
        (some ⟨[sampleRunningPod, samplePendingPod]⟩, none) (none, some sampleNotFound)
        newStatus).1.PodsCount =
      ⟨((((some (⟨[sampleRunningPod, samplePendingPod]⟩ : PodList)).map PodList.Items).getD
          []).countP countedPod : Nat), 0⟩ :=
  (podCount_endpoints_not_registered ⟨sampleWaitParams⟩
    (some ⟨[sampleRunningPod, samplePendingPod]⟩) sampleNotFound newStatus).1 rfl

/-- The sibling path: every write of `deploymentStatus` to a fresh report is made
between its `Lock` and its `Unlock`. -/
theorem deploymentStatus_writes_guarded (k : K8sStatusCollector)
    (got : Option Deployment × Option ClientErr) (name : String) :
    unguardedWrites false (k.deploymentStatus got newStatus name).1.trace = [] := by
  obtain ⟨d, e⟩ := got
  cases e with
  | some e =>
    unfold K8sStatusCollector.deploymentStatus
    by_cases h : e.isNotFound = true <;> simp [h, newStatus, unguardedWrites]
  | none =>
    cases d with
    | none => rfl
    | some d =>
      rw [deploymentStatus_some]
      by_cases h1 : d.Replicas - d.ReadyReplicas > 0 <;>
      by_cases h2 : d.UnavailableReplicas - (d.Replicas - d.ReadyReplicas) > 0 <;>
      by_cases h3 : d.Generation = d.ObservedGeneration <;>
      by_cases h4 : d.UpdatedReplicas < d.Replicas <;>
      simp only [h1, h2, h3, h4, if_true, if_false, ne_eq, not_true_eq_false,
        not_false_eq_true] <;>
      rfl

/-! ### Cluster mesh connectivity -/

theorem GoMap.index_assign {α : Type} (m : GoMap α) (k k' : String) (v : α) :
    GoMap.index (GoMap.assign m k v) k' = if k = k' then some v else GoMap.index m k' := by
  induction m with
  | nil => simp [GoMap.assign, GoMap.index]
  | cons x rest ih =>
    obtain ⟨k0, v0⟩ := x
    unfold GoMap.assign
    by_cases h0 : k0 = k
    · subst h0
      by_cases h1 : k0 = k' <;> simp [GoMap.index, h1]
    · by_cases h1 : k = k'
      · subst h1
        simp [h0, GoMap.index, ih]
      · by_cases h2 : k0 = k'
        · subst h2
          simp [h0, h1, GoMap.index]
        · simp [h0, h1, h2, GoMap.index, ih]

theorem GoMap.keys_assign {α : Type} (m : GoMap α) (k : String) (v : α) :
    (GoMap.assign m k v).map Prod.fst =
      if k ∈ m.map Prod.fst then m.map Prod.fst else m.map Prod.fst ++ [k] := by
  induction m with
  | nil => simp [GoMap.assign]
  | cons x rest ih =>
    obtain ⟨k0, v0⟩ := x
    unfold GoMap.assign
    by_cases h0 : k0 = k
    · subst h0
      simp
    · have h0' : ¬ k = k0 := fun h => h0 h.symm
      by_cases hmem : k ∈ rest.map Prod.fst
      · simp only [h0, if_false, List.map_cons, ih, hmem, if_true, List.mem_cons, or_true]
      · simp only [h0, if_false, List.map_cons, ih, hmem, List.mem_cons, h0', or_self,
          List.cons_append]

theorem GoMap.index_isSome {α : Type} (m : GoMap α) (k : String) :
    (GoMap.index m k).isSome = true ↔ k ∈ m.map Prod.fst := by
  induction m with
  | nil => simp [GoMap.index]
  | cons x rest ih =>
    obtain ⟨k0, v0⟩ := x
    unfold GoMap.index
    by_cases h0 : k0 = k
    · simp [h0]
    · have h0' : ¬ k = k0 := fun h => h0 h.symm
      simp [h0, h0', ih]

/-- The map the loop over the clusters builds from `m`. -/
theorem rangeClusters_map_some (reported : List RemoteCluster) :
    ∀ m : GoMap RemoteCluster,
      rangeClusters (reported.map some) m =
        some (reported.foldl (fun m cluster => GoMap.assign m cluster.Name cluster) m) := by
  induction reported with
  | nil => intro m; rfl
  | cons c rest ih => intro m; simp [rangeClusters, ih]

theorem rangeClusters_some_inv :
    ∀ (l : List (Option RemoteCluster)) (m r : GoMap RemoteCluster),
      rangeClusters l m = some r → ∃ reported : List RemoteCluster, l = reported.map some := by
  intro l
  induction l with
  | nil => intro m r _; exact ⟨[], rfl⟩
  | cons x rest ih =>
    intro m r h
    cases x with
    | none => simp [rangeClusters] at h
    | some c =>
      obtain ⟨reported, hr⟩ := ih _ r (by simpa [rangeClusters] using h)
      exact ⟨c :: reported, by simp [hr]⟩

theorem foldl_assign_index (name : String) (reported : List RemoteCluster) :
    ∀ m : GoMap RemoteCluster,
      GoMap.index (reported.foldl (fun m cluster => GoMap.assign m cluster.Name cluster) m) name =
        (lastReported reported name).or (GoMap.index m name) := by
  induction reported with
  | nil => intro m; simp [lastReported]
  | cons c rest ih =>
    intro m
    rw [List.foldl_cons, ih, GoMap.index_assign]
    unfold lastReported at *
    by_cases hc : c.Name = name
    · simp only [hc, if_true, List.filter_cons, decide_True, List.getLast?_cons]
      cases (List.filter (fun cluster => decide (cluster.Name = name)) rest).getLast? <;> simp
    · simp [hc, List.filter_cons]

theorem foldl_assign_keys (reported : List RemoteCluster) :
    ∀ m : GoMap RemoteCluster, (m.map Prod.fst).Nodup →
      ((reported.foldl (fun m cluster => GoMap.assign m cluster.Name cluster) m).map
        Prod.fst).Nodup := by
  induction reported with
  | nil => intro m h; exact h
  | cons c rest ih =>
    intro m h
    rw [List.foldl_cons]
    apply ih
    rw [GoMap.keys_assign]
    by_cases hmem : c.Name ∈ m.map Prod.fst
    · simpa [hmem] using h
    · simp only [hmem, if_false]
      exact List.Nodup.append h (List.nodup_singleton _) (by simpa using hmem)

theorem lastReported_isSome (reported : List RemoteCluster) (name : String) :
    (lastReported reported name).isSome = true ↔ name ∈ reported.map RemoteCluster.Name := by
  unfold lastReported
  induction reported with
  | nil => simp
  | cons c rest ih =>
    by_cases hc : c.Name = name
    · simp [List.filter_cons, hc, List.getLast?_cons]
    · have hc' : ¬ name = c.Name := fun h => hc h.symm
      simp only [List.filter_cons, hc, decide_False, Bool.false_eq_true, if_false, ih,
        List.map_cons, List.mem_cons, hc', false_or]

/-- What the loop over the clusters builds from the empty map. -/
theorem foldl_assign_spec (reported : List RemoteCluster) :
    (∀ name, GoMap.index
        (reported.foldl (fun m cluster => GoMap.assign m cluster.Name cluster) []) name =
      lastReported reported name) ∧
    (∀ name, name ∈ (reported.foldl (fun m cluster => GoMap.assign m cluster.Name cluster)
        []).map Prod.fst ↔ name ∈ reported.map RemoteCluster.Name) ∧
    (reported.foldl (fun m cluster => GoMap.assign m cluster.Name cluster) []).length =
      (reported.map RemoteCluster.Name).dedup.length := by
  have hidx : ∀ name, GoMap.index
      (reported.foldl (fun m cluster => GoMap.assign m cluster.Name cluster) []) name =
      lastReported reported name := by
    intro name
    rw [foldl_assign_index]
    simp [GoMap.index]
  have hkeys : ∀ name, name ∈ (reported.foldl
      (fun m cluster => GoMap.assign m cluster.Name cluster) []).map Prod.fst ↔
      name ∈ reported.map RemoteCluster.Name := by
    intro name
    rw [← GoMap.index_isSome, hidx, lastReported_isSome]
  refine ⟨hidx, hkeys, ?_⟩
  have hnodup := foldl_assign_keys reported [] (by simp)
  have hset : ((reported.foldl (fun m cluster => GoMap.assign m cluster.Name cluster)
      []).map Prod.fst).toFinset = (reported.map RemoteCluster.Name).toFinset := by
    ext name
    simp only [List.mem_toFinset]
    exact hkeys name
  rw [← List.card_toFinset, ← hset, List.toFinset_card_of_nodup hnodup, List.length_map]

/-- C11: `ClusterMeshConnectivity` returns the sentinel
`ErrClusterMeshStatusNotAvailable`, with a nil result, exactly when the call to
`CiliumStatus` succeeds with a status that has no `ClusterMesh` section; when the
call fails, it returns the error of the call as it is, with a nil result. -/
theorem ClusterMeshConnectivity_not_available (k : K8sStatusCollector)
    (got : Option StatusResponse × Option ClientErr) :
    (∀ result,
      k.ClusterMeshConnectivity got = some (result, some ErrClusterMeshStatusNotAvailable) ↔
        result = none ∧ ∃ status, got = (some status, none) ∧ status.ClusterMesh = none) ∧
    (∀ err, got.2 = some err →
      k.ClusterMeshConnectivity got = some (none, some (ConnectivityError.client err))) := by
  obtain ⟨s, e⟩ := got
  constructor
  · intro result
    cases e with
    | some err =>
      simp [K8sStatusCollector.ClusterMeshConnectivity, ErrClusterMeshStatusNotAvailable]
    | none =>
      cases s with
      | none => simp [K8sStatusCollector.ClusterMeshConnectivity]
      | some status =>
        cases hm : status.ClusterMesh with
        | none =>
          simp only [K8sStatusCollector.ClusterMeshConnectivity, hm]
          constructor
          · intro h
            simp only [Option.some.injEq, Prod.mk.injEq, and_true] at h
            exact ⟨h.symm, status, rfl, hm⟩
          · rintro ⟨h, _⟩
            rw [h]
        | some mesh =>
          simp only [K8sStatusCollector.ClusterMeshConnectivity, hm]
          cases rangeClusters mesh.Clusters [] <;> simp [hm]
  · intro err herr
    simp only at herr
    subst herr
    rfl

theorem ClusterMeshConnectivity_not_available_witness :
    K8sStatusCollector.ClusterMeshConnectivity ⟨sampleWaitParams⟩ (some sampleNoMesh, none) =
      some (none, some ErrClusterMeshStatusNotAvailable) ∧
    K8sStatusCollector.ClusterMeshConnectivity ⟨sampleWaitParams⟩ (none, some sampleExecFailed) =
      some (none, some (ConnectivityError.client sampleExecFailed)) :=
  ⟨((ClusterMeshConnectivity_not_available ⟨sampleWaitParams⟩ (some sampleNoMesh, none)).1
      none).mpr ⟨rfl, sampleNoMesh, rfl, rfl⟩,
    (ClusterMeshConnectivity_not_available ⟨sampleWaitParams⟩ (none, some sampleExecFailed)).2
      sampleExecFailed rfl⟩

/-- The two connectivity methods on a list of clusters without a nil pointer. -/
theorem connectivity_ok (k : K8sStatusCollector) (n : Int) (reported : List RemoteCluster) :
    k.ClusterMeshConnectivity (some ⟨some ⟨n, reported.map some⟩⟩, none) =
      some (some ⟨n, reported.foldl (fun m cluster => GoMap.assign m cluster.Name cluster) [],
        []⟩, none) ∧
    k.KVStoreMeshConnectivity (reported.map some, none) =
      some (some ⟨0, reported.foldl (fun m cluster => GoMap.assign m cluster.Name cluster) [],
        []⟩, none) := by
  simp [K8sStatusCollector.ClusterMeshConnectivity, K8sStatusCollector.KVStoreMeshConnectivity,
    rangeClusters_map_some]

/-- C12: on success, `ClusterMeshConnectivity` and `KVStoreMeshConnectivity`
return a result whose `Clusters` map has exactly the names of the reported
clusters as keys, maps each name to the last reported cluster of that name, and
has as many entries as there are distinct names; `ClusterMeshConnectivity` sets
`GlobalServices` to the reported `NumGlobalServices`, `KVStoreMeshConnectivity`
leaves it 0. Both succeed whenever the call succeeds (with a `ClusterMesh`
section, for the former) and no reported cluster is a nil pointer. -/
theorem connectivity_clusters (k : K8sStatusCollector) :
    (∀ got c, k.ClusterMeshConnectivity got = some (some c, none) →
      ∃ status mesh reported, got = (some status, none) ∧ status.ClusterMesh = some mesh ∧
        mesh.Clusters = reported.map some ∧
        c.GlobalServices = mesh.NumGlobalServices ∧
        (∀ name, name ∈ c.Clusters.map Prod.fst ↔ name ∈ reported.map RemoteCluster.Name) ∧
        (∀ name, GoMap.index c.Clusters name = lastReported reported name) ∧
        c.Clusters.length = (reported.map RemoteCluster.Name).dedup.length) ∧
    (∀ got c, k.KVStoreMeshConnectivity got = some (some c, none) →
      ∃ reported, got = (reported.map some, none) ∧
        c.GlobalServices = 0 ∧
        (∀ name, name ∈ c.Clusters.map Prod.fst ↔ name ∈ reported.map RemoteCluster.Name) ∧
        (∀ name, GoMap.index c.Clusters name = lastReported reported name) ∧
        c.Clusters.length = (reported.map RemoteCluster.Name).dedup.length) ∧
    (∀ (n : Int) (reported : List RemoteCluster), ∃ c c',
      k.ClusterMeshConnectivity (some ⟨some ⟨n, reported.map some⟩⟩, none) = some (some c, none) ∧
      k.KVStoreMeshConnectivity (reported.map some, none) = some (some c', none)) := by
  refine ⟨?_, ?_, fun n reported => ⟨_, _, connectivity_ok k n reported⟩⟩
  · rintro ⟨s, e⟩ c h
    cases e with
    | some err => simp [K8sStatusCollector.ClusterMeshConnectivity] at h
    | none =>
      cases s with
      | none => simp [K8sStatusCollector.ClusterMeshConnectivity] at h
      | some status =>
        cases hm : status.ClusterMesh with
        | none =>
          simp [K8sStatusCollector.ClusterMeshConnectivity, hm,
            ErrClusterMeshStatusNotAvailable] at h
        | some mesh =>
          cases hr : rangeClusters mesh.Clusters [] with
          | none => simp [K8sStatusCollector.ClusterMeshConnectivity, hm, hr] at h
          | some m =>
            obtain ⟨reported, hrep⟩ := rangeClusters_some_inv _ _ _ hr
            rw [hrep, rangeClusters_map_some] at hr
            simp only [K8sStatusCollector.ClusterMeshConnectivity, hm, hrep,
              rangeClusters_map_some, Option.some.injEq, Prod.mk.injEq, and_true] at h
            subst h
            obtain ⟨h1, h2, h3⟩ := foldl_assign_spec reported
            exact ⟨status, mesh, reported, rfl, hm, hrep, rfl, h2, h1, h3⟩
  · rintro ⟨l, e⟩ c h
    cases e with
    | some err => simp [K8sStatusCollector.KVStoreMeshConnectivity] at h
    | none =>
      cases hr : rangeClusters l [] with
      | none => simp [K8sStatusCollector.KVStoreMeshConnectivity, hr] at h
      | some m =>
        obtain ⟨reported, hrep⟩ := rangeClusters_some_inv _ _ _ hr
        subst hrep
        simp only [K8sStatusCollector.KVStoreMeshConnectivity, rangeClusters_map_some,
          Option.some.injEq, Prod.mk.injEq, and_true] at h
        subst h
        obtain ⟨h1, h2, h3⟩ := foldl_assign_spec reported
        exact ⟨reported, rfl, rfl, h2, h1, h3⟩

theorem connectivity_clusters_witness :
    ∃ reported, ((sampleReported.map some, none) :
        List (Option RemoteCluster) × Option ClientErr) = (reported.map some, none) ∧
      sampleKVStoreMeshResult.GlobalServices = 0 ∧
      (∀ name, name ∈ sampleKVStoreMeshResult.Clusters.map Prod.fst ↔
        name ∈ reported.map RemoteCluster.Name) ∧
      (∀ name, GoMap.index sampleKVStoreMeshResult.Clusters name = lastReported reported name) ∧
      sampleKVStoreMeshResult.Clusters.length = (reported.map RemoteCluster.Name).dedup.length :=
  (connectivity_clusters ⟨sampleWaitParams⟩).2.1 (sampleReported.map some, none)
    sampleKVStoreMeshResult (by decide)

/-! ### The task list -/

theorem podStatusStep_captured (k : K8sStatusCollector) (name : String)
    (callback : TaskList → Status → String → Pod → TaskList × Status)
    (g : TaskList → Pod → TaskList)
    (hg : ∀ captured status n pod, (callback captured status n pod).1 = g captured pod) :
    ∀ (pods : List Pod) (l : PodStatusLoop TaskList),
      (pods.foldl (k.podStatusStep name (some callback)) l).captured = pods.foldl g l.captured := by
  intro pods
  induction pods with
  | nil => intro l; rfl
  | cons pod rest ih =>
    intro l
    rw [List.foldl_cons, List.foldl_cons, ih]
    congr 1
    simp only [K8sStatusCollector.podStatusStep]
    exact hg _ _ _ _

theorem statusPods_captured (k : K8sStatusCollector) (name : String)
    (callback : TaskList → Status → String → Pod → TaskList × Status)
    (g : TaskList → Pod → TaskList)
    (hg : ∀ captured status n pod, (callback captured status n pod).1 = g captured pod)
    (pods : PodList) (state : TaskList × Status) :
    (k.statusPods (some pods, none) name callback state).1 = pods.Items.foldl g state.1 := by
  unfold K8sStatusCollector.statusPods K8sStatusCollector.podStatus
  simp only
  exact podStatusStep_captured k name callback g hg pods.Items _

/-- The state update of the callback for the agent pods. -/
theorem agentPodCallback_fst (k : K8sStatusCollector) (d : Defaults) (captured : TaskList)
    (status : Status) (n : String) (pod : Pod) :
    (k.agentPodCallback d captured status n pod).1 =
      if pod.Phase = PodRunning then
        ⟨captured.tasks ++ [agentStatusTask d pod] ++
          (if captured.agentLogsOnce then []
            else [logGatheringTask d.AgentDaemonSetName d.AgentContainerName pod]), true⟩
      else captured := by
  unfold K8sStatusCollector.agentPodCallback
  by_cases hr : pod.Phase = PodRunning
  · by_cases ho : captured.agentLogsOnce = true <;>
      simp [hr, ho, agentStatusTask, logGatheringTask, K8sStatusCollector.logComponentTask]
  · simp [hr]

/-- The state update of the callback for the pods of a component. -/
theorem componentPodCallback_fst (k : K8sStatusCollector) (deployment containerName : String)
    (captured : TaskList) (status : Status) (n : String) (pod : Pod) :
    (k.componentPodCallback deployment containerName captured status n pod).1 =
      if pod.Phase = PodRunning then
        ⟨captured.tasks ++ [logGatheringTask deployment containerName pod],
          captured.agentLogsOnce⟩
      else captured := by
  unfold K8sStatusCollector.componentPodCallback
  by_cases hr : pod.Phase = PodRunning <;>
    simp [hr, logGatheringTask, K8sStatusCollector.logComponentTask]

theorem component_fold (deployment containerName : String) :
    ∀ (pods : List Pod) (captured : TaskList),
      pods.foldl (fun c pod =>
          if pod.Phase = PodRunning then
            (⟨c.tasks ++ [logGatheringTask deployment containerName pod],
              c.agentLogsOnce⟩ : TaskList)
          else c) captured =
        ⟨captured.tasks ++
          (pods.filter fun pod => pod.Phase = PodRunning).map
            (logGatheringTask deployment containerName),
          captured.agentLogsOnce⟩ := by
  intro pods
  induction pods with
  | nil => intro captured; simp
  | cons pod rest ih =>
    intro captured
    rw [List.foldl_cons]
    by_cases hr : pod.Phase = PodRunning
    · simp only [hr, if_true, ih, List.filter_cons, decide_True, List.map_cons,
        List.append_assoc, List.singleton_append]
    · simp only [hr, if_false, ih, List.filter_cons, decide_False, Bool.false_eq_true]

theorem agent_fold (d : Defaults) :
    ∀ (pods : List Pod) (captured : TaskList),
      ∃ appended : List statusTask,
        (pods.foldl (fun c pod =>
          if pod.Phase = PodRunning then
            (⟨c.tasks ++ [agentStatusTask d pod] ++
              (if c.agentLogsOnce then []
                else [logGatheringTask d.AgentDaemonSetName d.AgentContainerName pod]),
              true⟩ : TaskList)
          else c) captured).tasks = captured.tasks ++ appended ∧
        appended.filter statusTask.isAgentStatus =
          (pods.filter fun pod => pod.Phase = PodRunning).map (agentStatusTask d) ∧
        appended.filter statusTask.isLogGathering =
          (if captured.agentLogsOnce then []
            else ((pods.filter fun pod => pod.Phase = PodRunning).head?.map
              (logGatheringTask d.AgentDaemonSetName d.AgentContainerName)).toList) ∧
        appended.length = (pods.filter fun pod => pod.Phase = PodRunning).length +
          (if captured.agentLogsOnce = true ∨
              (pods.filter fun pod => pod.Phase = PodRunning) = [] then 0 else 1) := by
  intro pods
  induction pods with
  | nil => intro captured; exact ⟨[], by simp⟩
  | cons pod rest ih =>
    intro captured
    rw [List.foldl_cons]
    by_cases hr : pod.Phase = PodRunning
    · simp only [hr, if_true]
      obtain ⟨rest', h1, h2, h3, h4⟩ := ih
        ⟨captured.tasks ++ [agentStatusTask d pod] ++
          (if captured.agentLogsOnce then []
            else [logGatheringTask d.AgentDaemonSetName d.AgentContainerName pod]), true⟩
      simp only [if_true, true_or] at h3 h4
      by_cases ho : captured.agentLogsOnce = true
      · refine ⟨agentStatusTask d pod :: rest', ?_, ?_, ?_, ?_⟩
        · rw [h1]; simp [ho]
        · simp [List.filter_cons, hr, h2, statusTask.isAgentStatus, agentStatusTask]
        · simp [List.filter_cons, h3, ho, statusTask.isLogGathering, agentStatusTask]
        · simp [List.filter_cons, hr, h4, ho]
      · refine ⟨agentStatusTask d pod ::
          logGatheringTask d.AgentDaemonSetName d.AgentContainerName pod :: rest', ?_, ?_, ?_, ?_⟩
        · rw [h1]; simp [ho]
        · simp [List.filter_cons, hr, h2, statusTask.isAgentStatus, agentStatusTask,
            logGatheringTask]
        · simp [List.filter_cons, hr, h3, ho, statusTask.isLogGathering, agentStatusTask,
            logGatheringTask]
        · simp [List.filter_cons, hr, h4, ho]
    · simp only [hr, if_false]
      obtain ⟨rest', h1, h2, h3, h4⟩ := ih captured
      exact ⟨rest', h1, by simpa [List.filter_cons, hr] using h2,
        by simpa [List.filter_cons, hr] using h3, by simpa [List.filter_cons, hr] using h4⟩

theorem statusPods_component (k : K8sStatusCollector) (name deployment containerName : String)
    (pods : PodList) (state : TaskList × Status) :
    (k.statusPods (some pods, none) name (k.componentPodCallback deployment containerName)
      state).1.tasks =
      state.1.tasks ++ (runningPods pods).map (logGatheringTask deployment containerName) := by
  rw [statusPods_captured k name (k.componentPodCallback deployment containerName) _
    (fun c st n pod => componentPodCallback_fst k deployment containerName c st n pod) pods state,
    component_fold]
  rfl

/-- C13: for every list of agent pods, operator pods, relay pods and clustermesh
pods, the tasks `status` has gathered ahead of the worker pool are the nine
tasks it starts from, then the tasks for the agent pods, then one log-gathering
task per Running pod of the operator, of the relay and of the clustermesh API
server. Among the tasks for the agent pods there is exactly one agent status task
per Running pod, exactly one log-gathering task when a pod is Running, which is
for the first Running pod of the list, none otherwise, and nothing else. -/
theorem status_gathers_tasks (k : K8sStatusCollector) (d : Defaults)
    (agents operators relays clustermesh : PodList) :
    ∃ agentTasks : List statusTask,
      (k.statusTasks d (some agents, none) (some operators, none) (some relays, none)
        (some clustermesh, none)).1 =
        fixedTasks d ++ agentTasks
          ++ (runningPods operators).map
              (logGatheringTask d.OperatorDeploymentName d.OperatorContainerName)
          ++ (runningPods relays).map
              (logGatheringTask d.RelayDeploymentName d.RelayContainerName)
          ++ (runningPods clustermesh).map
              (logGatheringTask d.ClusterMeshDeploymentName d.ClusterMeshContainerName) ∧
      agentTasks.filter statusTask.isAgentStatus = (runningPods agents).map (agentStatusTask d) ∧
      agentTasks.filter statusTask.isLogGathering =
        ((runningPods agents).head?.map
          (logGatheringTask d.AgentDaemonSetName d.AgentContainerName)).toList ∧
      agentTasks.length =
        (runningPods agents).length + (if runningPods agents = [] then 0 else 1) := by
  obtain ⟨agentTasks, h1, h2, h3, h4⟩ := agent_fold d agents.Items ⟨fixedTasks d, false⟩
  simp only [Bool.false_eq_true, if_false, false_or] at h3 h4
  refine ⟨agentTasks, ?_, h2, h3, h4⟩
  unfold K8sStatusCollector.statusTasks
  simp only
  rw [statusPods_component, statusPods_component, statusPods_component,
    statusPods_captured k d.AgentDaemonSetName (k.agentPodCallback d) _
      (fun c st n pod => agentPodCallback_fst k d c st n pod) agents, h1]

/-- An evaluation of the task list: with the agent pods `a0` pending, `a1` and `a2`
running, and the operator pod `o1` running, `status` appends the status task of
`a1`, the log task of `a1`, the status task of `a2` and the log task of `o1`. -/
theorem statusTasks_example :
    ((⟨sampleWaitParams⟩ : K8sStatusCollector).statusTasks sampleDefaults
        (some ⟨[samplePod "a0" PodPending, samplePod "a1" PodRunning,
          samplePod "a2" PodRunning]⟩, none)
        (some ⟨[samplePod "o1" PodRunning]⟩, none) (some ⟨[]⟩, none) (some ⟨[]⟩, none)).1 =
      fixedTasks sampleDefaults ++
        [ ⟨"a1", TaskBody.agentStatus (samplePod "a1" PodRunning) none⟩,
          ⟨"a1", TaskBody.logComponent "kube-system" "cilium" "a1" "cilium-agent" none⟩,
          ⟨"a2", TaskBody.agentStatus (samplePod "a2" PodRunning) none⟩,
          ⟨"o1", TaskBody.logComponent "kube-system" "cilium-operator" "o1" "cilium-operator"
            none⟩ ] := by
  decide

end CiliumCli
